import Mathlib

/-!
Verification of the NeoQuake BSP loader, mesh builder and lightmap atlas
builder against its specification.

The development is a shallow embedding of the C++ sources:

* `src/BSP_Lightmaps.cpp` — `faceLightmapExtents`, `ShelfPacker::place`,
  `BuildLightmaps`;
* the BSP loader translation unit — `buildMeshes`, `lumpSpan`, `LoadBSP`
  (including the embedded miptex decoding loop);
* the struct layouts of `BSP.h` (`Face`, `TexInfo`, `Edge`, `Lump`,
  `BSPHeader`, `MipTex`, …).

Two layers are modelled.  The map layer mirrors the in-memory `BSPMap`
structure; C++ `float` arithmetic is embedded as exact rational arithmetic
(`ℚ`), which preserves every control-flow decision the claims are about.
The byte layer mirrors `LoadBSP` as a function from the raw file bytes
(a `List ℕ`, each entry one byte) to the decoded map; 32-bit float fields
are kept as their raw little-endian bit patterns, since no verified
property depends on interpreting them numerically.  File I/O (`readAll`)
is outside the model: the byte-layer entry point takes the slurped bytes.

C++ unchecked `std::vector` indexing is embedded with `List.getD`
(default on out-of-range), and the `(size_t)` casts of `lumpSpan` are
embedded exactly as two's-complement reinterpretation modulo 2^64.
-/

set_option maxRecDepth 1000000
set_option maxHeartbeats 1000000

namespace NeoQuake

/-! ## Map-layer data model (mirrors `BSP.h`) -/

/-- `struct Vec3 { float x,y,z; }`, floats embedded as `ℚ`. -/
structure Vec3 where
  x : ℚ
  y : ℚ
  z : ℚ
deriving DecidableEq, Repr

instance : Inhabited Vec3 := ⟨⟨0, 0, 0⟩⟩

/-- `struct Edge { uint16_t v0, v1; }`. -/
structure Edge where
  v0 : ℕ
  v1 : ℕ
deriving DecidableEq, Repr

instance : Inhabited Edge := ⟨⟨0, 0⟩⟩

/-- `struct TexInfo { float s[4]; float t[4]; int32_t miptex; int32_t flags; }`. -/
structure TexInfo where
  s0 : ℚ
  s1 : ℚ
  s2 : ℚ
  s3 : ℚ
  t0 : ℚ
  t1 : ℚ
  t2 : ℚ
  t3 : ℚ
  miptex : ℤ
  flags : ℤ
deriving DecidableEq, Repr

instance : Inhabited TexInfo := ⟨⟨0, 0, 0, 0, 0, 0, 0, 0, 0, 0⟩⟩

/-- `struct Face` (planenum/side/firstedge/numedges/texinfo/styles/lightofs). -/
structure Face where
  planenum : ℤ
  side : ℤ
  firstedge : ℤ
  numedges : ℤ
  texinfo : ℤ
  styles : List ℕ
  lightofs : ℤ
deriving DecidableEq, Repr

instance : Inhabited Face := ⟨⟨0, 0, 0, 0, 0, [0, 0, 0, 0], 0⟩⟩

/-- `struct BSPTexture { std::string name; uint32_t width, height; std::vector<uint8_t> indices; }`. -/
structure BSPTexture where
  name : String
  width : ℕ
  height : ℕ
  indices : List ℕ
deriving DecidableEq, Repr

instance : Inhabited BSPTexture := ⟨⟨"", 0, 0, []⟩⟩

/-- `struct LightmapRect` with its C++ default member initializers. -/
structure LightmapRect where
  x : ℤ := 0
  y : ℤ := 0
  w : ℤ := 0
  h : ℤ := 0
  lightofs : ℤ := -1
  valid : Bool := false
deriving DecidableEq, Repr

instance : Inhabited LightmapRect := ⟨{}⟩

/-- `struct LightmapAtlas` with its C++ default member initializers. -/
structure LightmapAtlas where
  width : ℤ := 0
  height : ℤ := 0
  rgba : List ℕ := []
  perFace : List LightmapRect := []
deriving DecidableEq, Repr

instance : Inhabited LightmapAtlas := ⟨{}⟩

/-- `struct BSPMesh { int textureIndex = -1; int faceIndex = -1; std::vector<float> vertices; }`. -/
structure BSPMesh where
  textureIndex : ℤ := -1
  faceIndex : ℤ := -1
  vertices : List ℚ := []
deriving DecidableEq, Repr

instance : Inhabited BSPMesh := ⟨{}⟩

/-- The parts of `struct BSPMap` that the verified core reads and writes. -/
structure BSPMap where
  version : ℤ := 0
  vertices : List Vec3 := []
  edges : List Edge := []
  surfedges : List ℤ := []
  faces : List Face := []
  texinfos : List TexInfo := []
  textures : List BSPTexture := []
  lighting : List ℕ := []
  meshes : List BSPMesh := []
  lmAtlas : LightmapAtlas := {}
deriving DecidableEq, Repr

instance : Inhabited BSPMap := ⟨{}⟩

/-! ## Surfedge resolution and the face vertex loop

Both `buildMeshes` (loader) and `faceLightmapExtents` (`BSP_Lightmaps.cpp`)
contain the identical inline loop

```
int se = map.surfedges[face.firstedge+i];
if (se >= 0) vind.push_back(map.edges[se].v0);
else         vind.push_back(map.edges[-se].v1);
```

embedded here once as `resolveSurfedge` / `faceLoop`. -/

/-- One surfedge lookup: non-negative selects `edges[se].v0`, negative
selects `edges[-se].v1`. -/
def resolveSurfedge (m : BSPMap) (se : ℤ) : ℕ :=
  if 0 ≤ se then (m.edges.getD se.toNat default).v0
  else (m.edges.getD (-se).toNat default).v1

/-- The polygon vertex-index loop of a face: `numedges` consecutive
surfedges starting at `firstedge`, each resolved to a vertex index. -/
def faceLoop (m : BSPMap) (f : Face) : List ℕ :=
  (List.range f.numedges.toNat).map fun i : ℕ =>
    resolveSurfedge m (m.surfedges.getD (f.firstedge + (i : ℤ)).toNat 0)

/-! ## `buildMeshes` -/

/-- `computeST`: S,T texture-space projection of a world point
(`BSP_Lightmaps.cpp`; `buildMeshes` computes the same dot products inline). -/
def computeST (p : Vec3) (ti : TexInfo) : ℚ × ℚ :=
  (p.x * ti.s0 + p.y * ti.s1 + p.z * ti.s2 + ti.s3,
   p.x * ti.t0 + p.y * ti.t1 + p.z * ti.t2 + ti.t3)

/-- The `textureIndex` a mesh stores: `ti.miptex` when it is a valid index
into `map.textures`, else `-1`. -/
def meshTextureIndex (m : BSPMap) (ti : TexInfo) : ℤ :=
  if 0 ≤ ti.miptex ∧ ti.miptex < (m.textures.length : ℤ) then ti.miptex else -1

/-- UV divisor: the referenced texture's width and height, each replaced by
1 when there is no texture or the dimension is non-positive. -/
def texDivisor (m : BSPMap) (texIndex : ℤ) : ℚ × ℚ :=
  if 0 ≤ texIndex then
    let tex := m.textures.getD texIndex.toNat default
    ((if tex.width = 0 then 1 else (tex.width : ℚ)),
     (if tex.height = 0 then 1 else (tex.height : ℚ)))
  else (1, 1)

/-- `addVertex` of `buildMeshes`: the five floats pushed for one vertex
index — position, then `u = s/w`, then the flipped `v = 1 - t/h`. -/
def addVertex (m : BSPMap) (ti : TexInfo) (w h : ℚ) (vi : ℕ) : List ℚ :=
  let p := m.vertices.getD vi default
  let st := computeST p ti
  [p.x, p.y, p.z, st.1 / w, 1 - st.2 / h]

/-- `buildMeshes` body for one face: resolve the loop, keep an empty mesh
for degenerate faces, else fan-triangulate emitting the triangles
`(loop[0], loop[i], loop[i+1])` for `i ∈ [1, n-2]`. -/
def buildMesh (m : BSPMap) (f : Face) : BSPMesh :=
  let vind := faceLoop m f
  if vind.length < 3 then {}
  else
    let ti := m.texinfos.getD f.texinfo.toNat default
    let tIdx := meshTextureIndex m ti
    let wh := texDivisor m tIdx
    { textureIndex := tIdx
      faceIndex := -1
      vertices :=
        (List.range (vind.length - 2)).flatMap fun j =>
          addVertex m ti wh.1 wh.2 (vind.getD 0 0) ++
          addVertex m ti wh.1 wh.2 (vind.getD (j + 1) 0) ++
          addVertex m ti wh.1 wh.2 (vind.getD (j + 2) 0) }

/-- `buildMeshes`: one mesh per face, in face order. -/
def buildMeshes (m : BSPMap) : BSPMap :=
  { m with meshes := m.faces.map (buildMesh m) }

/-! ## `BSP_Lightmaps.cpp`: extents, shelf packer, atlas build -/

/-- `qfloor16`: round down to a multiple of 16 (as an integer). -/
def qfloor16 (s : ℚ) : ℤ := ⌊s / 16⌋ * 16

/-- `qceil16`: round up to a multiple of 16 (as an integer). -/
def qceil16 (s : ℚ) : ℤ := ⌈s / 16⌉ * 16

/-- The sentinel `1e30f` used to seed the S/T min/max folds.  Exact value
of the `float` literal is irrelevant: it only has to exceed every
S/T value that occurs, which the claims' inputs respect. -/
def stSentinel : ℚ := 10 ^ 30

/-- `faceLightmapExtents`: luxel width/height and the 16-aligned S/T
minima for one face.  Returns `(w, h, sminAligned, tminAligned)`. -/
def faceLightmapExtents (m : BSPMap) (fi : ℕ) : ℤ × ℤ × ℚ × ℚ :=
  let f := m.faces.getD fi default
  let ti := m.texinfos.getD f.texinfo.toNat default
  let vind := faceLoop m f
  if vind.length < 3 then (0, 0, 0, 0)
  else
    let sts := vind.map fun vi => computeST (m.vertices.getD vi default) ti
    let smin := (sts.map Prod.fst).foldl min stSentinel
    let smax := (sts.map Prod.fst).foldl max (-stSentinel)
    let tmin := (sts.map Prod.snd).foldl min stSentinel
    let tmax := (sts.map Prod.snd).foldl max (-stSentinel)
    let sminA := qfloor16 smin
    let tminA := qfloor16 tmin
    let smaxA := qceil16 smax
    let tmaxA := qceil16 tmax
    let extS := smaxA - sminA
    let extT := tmaxA - tminA
    let smaxLux := Int.tdiv extS 16
    let tmaxLux := Int.tdiv extT 16
    (max 1 (smaxLux + 1), max 1 (tmaxLux + 1), (sminA : ℚ), (tminA : ℚ))

/-- `struct ShelfPacker` state (`W, H, x, y, shelfH`, all C++ `int`). -/
structure ShelfPacker where
  W : ℤ
  H : ℤ
  x : ℤ := 0
  y : ℤ := 0
  shelfH : ℤ := 0
deriving DecidableEq, Repr

/-- `ShelfPacker::place`: returns `(ok, outx, outy, new state)`.  As in the
C++, a failed placement can still have advanced the cursor to a new
shelf, so the post-state is returned even on failure (`outx`/`outy` are
left unassigned by the C++ on failure; callers ignore them, and the model
returns 0). -/
def ShelfPacker.place (st : ShelfPacker) (w h : ℤ) : Bool × ℤ × ℤ × ShelfPacker :=
  if w > st.W ∨ h > st.H then (false, 0, 0, st)
  else
    let st1 := if st.x + w > st.W then { st with y := st.y + st.shelfH, x := 0, shelfH := 0 } else st
    if st1.y + h > st1.H then (false, 0, 0, st1)
    else (true, st1.x, st1.y, { st1 with x := st1.x + w, shelfH := max st1.shelfH h })

/-- Run the packer over a list of `(w, h)` blocks; `none` when some
placement fails (the sizing loop's `ok = false; break`). -/
def packRun (st : ShelfPacker) : List (ℤ × ℤ) → Option ShelfPacker
  | [] => some st
  | (w, h) :: rest =>
    let r := st.place w h
    if r.1 then packRun r.2.2.2 rest else none

/-- Per-face lightmap info gathered in step 1 of `BuildLightmaps`
(`struct FaceLM`, zero-initialized). -/
structure FaceLM where
  w : ℤ := 0
  h : ℤ := 0
  sminA : ℚ := 0
  tminA : ℚ := 0
  hasLM : Bool := false
deriving DecidableEq, Repr

instance : Inhabited FaceLM := ⟨{}⟩

/-- Step 1 of `BuildLightmaps` for one face: extents are computed only
when `lightofs` is non-negative and within the lighting array, and the
face qualifies (`hasLM`) only when both luxel dimensions are positive. -/
def computeFaceLM (m : BSPMap) (fi : ℕ) : FaceLM :=
  let f := m.faces.getD fi default
  if 0 ≤ f.lightofs ∧ f.lightofs < (m.lighting.length : ℤ) then
    let e := faceLightmapExtents m fi
    { w := e.1, h := e.2.1, sminA := e.2.2.1, tminA := e.2.2.2,
      hasLM := 0 < e.1 ∧ 0 < e.2.1 }
  else {}

/-- The list of qualifying `(w, h)` blocks, in face-array order (the
sizing and packing loops skip faces with `hasLM = false`). -/
def lmBlocks (faceLM : List FaceLM) : List (ℤ × ℤ) :=
  (faceLM.filter (·.hasLM)).map fun info => (info.w, info.h)

/-- `totalArea` of step 1: sum of `w*h` over qualifying faces. -/
def totalArea (faceLM : List FaceLM) : ℤ :=
  (faceLM.foldl (fun acc info => if info.hasLM then acc + info.w * info.h else acc) 0)

/-- Step 2 of `BuildLightmaps`: starting from the current size, try a full
shelf-pack; on failure double the smaller dimension and retry, aborting
(`none`) once a dimension would exceed 8192.  The C++ `for(;;)` loop is
embedded with a fuel argument; from the actual start size 1024×1024 the
dimensions double past 8192 within 8 iterations, so any fuel ≥ 8 is
faithful (fuel exhaustion is mapped to the abort result). -/
def growAtlas : ℕ → ℤ → ℤ → List (ℤ × ℤ) → Option (ℤ × ℤ)
  | 0, _, _, _ => none
  | fuel + 1, aW, aH, blocks =>
    if (packRun ⟨aW, aH, 0, 0, 0⟩ blocks).isSome then some (aW, aH)
    else
      let aW' := if aW ≤ aH then aW * 2 else aW
      let aH' := if aW ≤ aH then aH else aH * 2
      if aW' > 8192 ∨ aH' > 8192 then none
      else growAtlas fuel aW' aH' blocks

/-- Step 3 of `BuildLightmaps`: re-run the packer over all faces, storing a
`LightmapRect` per face (1:1 with faces); non-qualifying and unplaceable
faces keep the default invalid rect.  The packer state threads through
exactly as in the C++ (including cursor movement on failed placements). -/
def packRects (m : BSPMap) (faceLM : List FaceLM) (aW aH : ℤ) : List LightmapRect :=
  (((List.range m.faces.length).foldl (fun acc fi =>
      let st := acc.2
      let inf := faceLM.getD fi default
      if ¬inf.hasLM then (acc.1 ++ [({} : LightmapRect)], st)
      else
        let r := st.place inf.w inf.h
        if ¬r.1 then (acc.1 ++ [({} : LightmapRect)], r.2.2.2)
        else
          (acc.1 ++ [{ x := r.2.1, y := r.2.2.1, w := inf.w, h := inf.h,
                       lightofs := (m.faces.getD fi default).lightofs,
                       valid := true }], r.2.2.2))
    (([] : List LightmapRect), (⟨aW, aH, 0, 0, 0⟩ : ShelfPacker)))).1

/-! ### Step 5: copying lighting bytes into the RGBA atlas -/

/-- `(size_t)` cast of a C++ integer: two's-complement reinterpretation
modulo 2^64. -/
def toSizeT (i : ℤ) : ℕ := (i % (2 ^ 64 : ℤ)).toNat

/-- Write one atlas pixel: four consecutive bytes `R=G=B=v, A=255` at
pixel `(px, py)` of an `aW`-wide RGBA image. -/
def writePixel (rgba : List ℕ) (aW : ℕ) (px py : ℕ) (v : ℕ) : List ℕ :=
  let a := (py * aW + px) * 4
  ((((rgba.set a v).set (a + 1) v).set (a + 2) v).set (a + 3) 255)

/-- The inner `for (x)` loop of the fill: one row of a face's block,
writing `g x` into pixel `(rx + x, rowY)` for `x < w`. -/
def rowFill (rgba : List ℕ) (aW rx rowY : ℕ) (g : ℕ → ℕ) (w : ℕ) : List ℕ :=
  (List.range w).foldl (fun acc x => writePixel acc aW (rx + x) rowY (g x)) rgba

/-- The nested `for (y) for (x)` fill of one face's atlas block, writing
`f x y` into pixel `(rx + x, ry + y)`. -/
def fillRectWith (rgba : List ℕ) (aW : ℕ) (rx ry w h : ℕ) (f : ℕ → ℕ → ℕ) : List ℕ :=
  (List.range h).foldl (fun acc y => rowFill acc aW rx (ry + y) (fun x => f x y) w) rgba

/-- Step 5 body for one valid rect: if `lightofs + w*h` overruns the
lighting array, fill the block with opaque white; otherwise broadcast
each lighting byte into R=G=B with A=255. -/
def fillRect (lighting : List ℕ) (aW : ℕ) (rect : LightmapRect) (lightofs : ℤ)
    (rgba : List ℕ) : List ℕ :=
  let ofs := toSizeT lightofs
  if ofs + rect.w.toNat * rect.h.toNat > lighting.length then
    fillRectWith rgba aW rect.x.toNat rect.y.toNat rect.w.toNat rect.h.toNat
      (fun _ _ => 255)
  else
    fillRectWith rgba aW rect.x.toNat rect.y.toNat rect.w.toNat rect.h.toNat
      (fun x y => lighting.getD (ofs + y * rect.w.toNat + x) 0)

/-- Step 5: the whole atlas image — allocated all-255, then each face with
a valid rect copied in (reading that face's `lightofs`). -/
def fillAtlas (m : BSPMap) (rects : List LightmapRect) (aW aH : ℤ) : List ℕ :=
  (List.range m.faces.length).foldl (fun rgba fi =>
      let rect := rects.getD fi default
      if rect.valid then
        fillRect m.lighting aW.toNat rect (m.faces.getD fi default).lightofs rgba
      else rgba)
    (List.replicate ((aW * aH).toNat * 4) 255)

/-! ### Step 6: the 5-float → 7-float vertex rewrite -/

/-- Split a vertex buffer into its 5-float `(x, y, z, u0, v0)` tuples, as
the C++ loop `for (i = 0; i < size; i += 5)` walks it. -/
def chunks5 : List ℚ → List (ℚ × ℚ × ℚ × ℚ × ℚ)
  | a :: b :: c :: d :: e :: rest => (a, b, c, d, e) :: chunks5 rest
  | _ => []

/-- The zero-area early-exit rewrite: append `u1 = v1 = 0` to every
vertex tuple. -/
def expandZero (vs : List ℚ) : List ℚ :=
  (chunks5 vs).flatMap fun t => [t.1, t.2.1, t.2.2.1, t.2.2.2.1, t.2.2.2.2, 0, 0]

/-- Step 6, one vertex tuple on the full path: recompute S/T from the
stored position, convert to luxel-local coordinates, and map into the
face's atlas rect (texel-centered, divided by the atlas size), or
`u1 = v1 = 0` when the rect is invalid. -/
def expandChunk (ti : TexInfo) (sminA tminA : ℚ) (w h : ℤ) (rect : LightmapRect)
    (aW aH : ℤ) (t : ℚ × ℚ × ℚ × ℚ × ℚ) : List ℚ :=
  let p : Vec3 := ⟨t.1, t.2.1, t.2.2.1⟩
  let st := computeST p ti
  let ls := (st.1 - sminA) / 16
  let lt := (st.2 - tminA) / 16
  let uv1 : ℚ × ℚ :=
    if rect.valid ∧ 0 < w ∧ 0 < h then
      (((rect.x : ℚ) + ls + 1 / 2) / (aW : ℚ), ((rect.y : ℚ) + lt + 1 / 2) / (aH : ℚ))
    else (0, 0)
  [t.1, t.2.1, t.2.2.1, t.2.2.2.1, t.2.2.2.2, uv1.1, uv1.2]

/-- Step 6 for one mesh on the full path (extents default to 0 and the
dimensions to 1 when the face does not qualify, exactly as the C++ sets
its locals). -/
def expandMesh (m : BSPMap) (faceLM : List FaceLM) (rects : List LightmapRect)
    (aW aH : ℤ) (fi : ℕ) (mesh : BSPMesh) : BSPMesh :=
  { mesh with
    faceIndex := (fi : ℤ)
    vertices :=
      (chunks5 mesh.vertices).flatMap
        (expandChunk (m.texinfos.getD (m.faces.getD fi default).texinfo.toNat default)
          (if (faceLM.getD fi default).hasLM then (faceLM.getD fi default).sminA else 0)
          (if (faceLM.getD fi default).hasLM then (faceLM.getD fi default).tminA else 0)
          (if (faceLM.getD fi default).hasLM then (faceLM.getD fi default).w else 1)
          (if (faceLM.getD fi default).hasLM then (faceLM.getD fi default).h else 1)
          (rects.getD fi default) aW aH) }

/-- The `faceLM` vector of step 1: `computeFaceLM` for every face index. -/
def lmFaceLM (m : BSPMap) : List FaceLM :=
  (List.range m.faces.length).map (computeFaceLM m)

/-- `BuildLightmaps` (`BSP_Lightmaps.cpp`): precondition check, per-face
info, zero-area early exit, atlas sizing, packing, pixel fill, and the
final stride rewrite. -/
def BuildLightmaps (m : BSPMap) : BSPMap :=
  if m.faces.length = 0 ∨ m.meshes.length ≠ m.faces.length then m
  else if totalArea (lmFaceLM m) = 0 then
    { m with lmAtlas := {},
             meshes := m.meshes.map fun mesh => { mesh with vertices := expandZero mesh.vertices } }
  else
    match growAtlas 32 1024 1024 (lmBlocks (lmFaceLM m)) with
    | none => { m with lmAtlas := {} }
    | some (aW, aH) =>
      { m with
        lmAtlas := { width := aW, height := aH,
                     rgba := fillAtlas m (packRects m (lmFaceLM m) aW aH) aW aH,
                     perFace := packRects m (lmFaceLM m) aW aH },
        meshes := (List.range m.faces.length).map fun fi =>
          expandMesh m (lmFaceLM m) (packRects m (lmFaceLM m) aW aH) aW aH fi
            (m.meshes.getD fi default) }

/-! ## Byte-layer model of `LoadBSP`

The file is a `List ℕ` of bytes.  Reads past the modelled buffer yield 0;
in every verified property the code's own bounds checks keep reads inside
the buffer.  32-bit float fields (vertex coordinates, texinfo s/t planes)
are kept as raw little-endian words: no claim interprets them numerically,
and keeping the bits avoids modelling IEEE-754. -/

/-- Little-endian unsigned 16-bit read (`*(const uint16_t*)p`). -/
def ru16 (d : List ℕ) (p : ℕ) : ℕ :=
  d.getD p 0 + 256 * d.getD (p + 1) 0

/-- Little-endian unsigned 32-bit read (`ru32` / the raw bits for `rf32`). -/
def ru32 (d : List ℕ) (p : ℕ) : ℕ :=
  d.getD p 0 + 256 * d.getD (p + 1) 0 + 65536 * d.getD (p + 2) 0 +
    16777216 * d.getD (p + 3) 0

/-- Little-endian signed 32-bit read (`rd32`). -/
def rd32 (d : List ℕ) (p : ℕ) : ℤ :=
  let u := ru32 d p
  if u < 2 ^ 31 then (u : ℤ) else (u : ℤ) - 2 ^ 32

/-- Little-endian signed 16-bit read (the `int16_t` fields of `Face`). -/
def rd16 (d : List ℕ) (p : ℕ) : ℤ :=
  let u := ru16 d p
  if u < 2 ^ 15 then (u : ℤ) else (u : ℤ) - 2 ^ 16

/-- `lumpSpan`: offset and size of lump `idx` as `(size_t)` values; the
whole span must fit in the file, else the empty span `(0, 0)`
(`{nullptr, 0}`).  The two casts and the sum follow C++ `size_t`
arithmetic modulo 2^64. -/
def lumpSpan (fileLen : ℕ) (offset size : ℤ) : ℕ × ℕ :=
  let off := toSizeT offset
  let sz := toSizeT size
  if (off + sz) % 2 ^ 64 > fileLen then (0, 0) else (off, sz)

/-- The lump descriptor of lump `idx` read from the header
(`hdr->lumps[idx]`, packed layout: 4-byte version, then 8 bytes per lump). -/
def lumpDesc (d : List ℕ) (idx : ℕ) : ℤ × ℤ :=
  (rd32 d (4 + 8 * idx), rd32 d (8 + 8 * idx))

/-- `lumpSpan` applied to the header's descriptor for lump `idx`. -/
def span (d : List ℕ) (idx : ℕ) : ℕ × ℕ :=
  lumpSpan d.length (lumpDesc d idx).1 (lumpDesc d idx).2

/-- Extract `sz` bytes starting at `off` (pointer + length span, reads
past the buffer yield 0 as everywhere in the byte layer). -/
def bytesAt (d : List ℕ) (off sz : ℕ) : List ℕ :=
  (List.range sz).map fun i => d.getD (off + i) 0

/-- A decoded vertex record: the three raw 32-bit float words. -/
structure Vec3Bits where
  x : ℕ
  y : ℕ
  z : ℕ
deriving DecidableEq, Repr

/-- A decoded `Face` record (20 bytes): field-by-field little-endian
layout of the packed struct. -/
def decodeFace (d : List ℕ) (p : ℕ) : Face :=
  { planenum := rd16 d p
    side := rd16 d (p + 2)
    firstedge := rd32 d (p + 4)
    numedges := rd16 d (p + 8)
    texinfo := rd16 d (p + 10)
    styles := [d.getD (p + 12) 0, d.getD (p + 13) 0, d.getD (p + 14) 0, d.getD (p + 15) 0]
    lightofs := rd32 d (p + 16) }

/-- A decoded `TexInfo` record (40 bytes), s/t plane floats kept as raw
words. -/
structure TexInfoBits where
  s : List ℕ
  t : List ℕ
  miptex : ℤ
  flags : ℤ
deriving DecidableEq, Repr

def decodeTexInfo (d : List ℕ) (p : ℕ) : TexInfoBits :=
  { s := [ru32 d p, ru32 d (p + 4), ru32 d (p + 8), ru32 d (p + 12)]
    t := [ru32 d (p + 16), ru32 d (p + 20), ru32 d (p + 24), ru32 d (p + 28)]
    miptex := rd32 d (p + 32)
    flags := rd32 d (p + 36) }

/-- A byte-layer texture entry: `BSPTexture` with the name kept as raw
bytes (`std::string` of the bytes before the first NUL, at most 16). -/
structure TextureBits where
  name : List ℕ := []
  width : ℕ := 0
  height : ℕ := 0
  indices : List ℕ := []
deriving DecidableEq, Repr

instance : Inhabited TextureBits := ⟨{}⟩

/-- One slot of the miptex loop over the lump bytes `L`: the stored offset
must be strictly inside the lump (`0 < off < L.length`) and leave room
for the 40-byte `MipTex` header, else the slot keeps its
default-constructed (resize-initialized) value.  Pixel indices for mip
level 0 are copied only when the dimensions are positive, the level-0
offset is positive and the `width*height` bytes (a `uint32` product,
hence reduced mod 2^32) fit in the lump. -/
def decodeMipSlot (L : List ℕ) (i : ℕ) : TextureBits :=
  let off := rd32 L (4 + 4 * i)
  if off ≤ 0 ∨ (L.length : ℤ) ≤ off then {}
  else if (L.length : ℤ) < off + 40 then {}
  else
    let o := off.toNat
    let name := ((List.range 16).map fun k => L.getD (o + k) 0).takeWhile (· ≠ 0)
    let width := ru32 L (o + 16)
    let height := ru32 L (o + 20)
    let lvl0 := ru32 L (o + 24)
    let pixCount := width * height % 2 ^ 32
    let indices :=
      if 0 < width ∧ 0 < height ∧ 0 < lvl0 ∧ o + lvl0 + pixCount ≤ L.length then
        bytesAt L (o + lvl0) pixCount
      else []
    { name := name, width := width, height := height, indices := indices }

/-- The miptex lump decode: a count, `count` offsets, then per-slot
decoding; a malformed header (negative count or an offset table that does
not fit) leaves the texture list empty, never failing the load. -/
def decodeMiptex (L : List ℕ) : List TextureBits :=
  if 4 ≤ L.length then
    let nummip := rd32 L 0
    if nummip < 0 ∨ (L.length : ℤ) < 4 + 4 * nummip then []
    else (List.range nummip.toNat).map (decodeMipSlot L)
  else []

/-- The collections `LoadBSP` decodes from the lumps (meshes are built
afterwards by `buildMeshes`, modelled at the map layer). -/
structure BMap where
  version : ℤ := 0
  vertices : List Vec3Bits := []
  edges : List Edge := []
  surfedges : List ℤ := []
  faces : List Face := []
  texinfos : List TexInfoBits := []
  lighting : List ℕ := []
  models : List (List ℕ) := []
  textures : List TextureBits := []
deriving DecidableEq, Repr

/-- The error string as `LoadBSP` leaves it on a successful load: set to
the version warning when the header version is not 29 (after which the
code deliberately continues), empty otherwise. -/
def verErr (d : List ℕ) : String :=
  if rd32 d 0 ≠ 29 then "Unsupported BSP version (expected 29)" else ""

/-- The map `LoadBSP` returns when every fatal check has passed: each
lump's records decoded from its span (lump indices: miptex 2, vertices
3, texinfo 6, faces 7, lighting 8, edges 12, surfedges 13, models 14). -/
def mkBMap (d : List ℕ) : BMap :=
  { version := rd32 d 0
    vertices := (List.range ((span d 3).2 / 12)).map fun i =>
      ⟨ru32 d ((span d 3).1 + 12 * i), ru32 d ((span d 3).1 + 12 * i + 4),
       ru32 d ((span d 3).1 + 12 * i + 8)⟩
    edges := (List.range ((span d 12).2 / 4)).map fun i =>
      ⟨ru16 d ((span d 12).1 + 4 * i), ru16 d ((span d 12).1 + 4 * i + 2)⟩
    surfedges := (List.range ((span d 13).2 / 4)).map fun i =>
      rd32 d ((span d 13).1 + 4 * i)
    faces := (List.range ((span d 7).2 / 20)).map fun i =>
      decodeFace d ((span d 7).1 + 20 * i)
    texinfos := (List.range ((span d 6).2 / 40)).map fun i =>
      decodeTexInfo d ((span d 6).1 + 40 * i)
    lighting := bytesAt d (span d 8).1 (span d 8).2
    models :=
      if (span d 14).2 % 64 = 0 ∧ 0 < (span d 14).2 then
        (List.range ((span d 14).2 / 64)).map fun i =>
          bytesAt d ((span d 14).1 + 64 * i) 64
      else []
    textures := decodeMiptex (bytesAt d (span d 2).1 (span d 2).2) }

/-- `LoadBSP` over the slurped file bytes.  Returns the pair
`(optional map, error string)` exactly as the C++ returns
`std::optional<BSPMap>` alongside its `error` out-parameter: a fatal
check returns `(none, message)`; a successful load returns the map
together with whatever the error string holds (empty, or the version
warning, which the code writes and then deliberately continues past). -/
def loadBSP (d : List ℕ) : Option BMap × String :=
  if d.length < 124 then (none, "File too small")
  else if (span d 3).2 % 12 ≠ 0 then (none, "Bad vertex lump size")
  else if (span d 12).2 % 4 ≠ 0 then (none, "Bad edges lump size")
  else if (span d 13).2 % 4 ≠ 0 then (none, "Bad surfedges lump size")
  else if (span d 7).2 % 20 ≠ 0 then (none, "Bad faces lump size")
  else if (span d 6).2 % 40 ≠ 0 then (none, "Bad texinfo lump size")
  else (some (mkBMap d), verErr d)

/-! ## Shared helper lemmas -/

theorem flatMap_uniform_length {α β : Type} (l : List α) (g : α → List β) (L : ℕ)
    (hg : ∀ a ∈ l, (g a).length = L) : (l.flatMap g).length = l.length * L := by
  induction l with
  | nil => simp
  | cons a t ih =>
    simp only [List.flatMap_cons, List.length_append, List.length_cons,
      hg a (List.mem_cons_self a t), ih fun b hb => hg b (List.mem_cons_of_mem a hb)]
    ring

theorem flatMap_uniform_extract {α β : Type} (l : List α) (g : α → List β) (L : ℕ)
    (hg : ∀ a ∈ l, (g a).length = L) (j : ℕ) (hj : j < l.length) (dflt : α) :
    ((l.flatMap g).drop (L * j)).take L = g (l.getD j dflt) := by
  induction l generalizing j with
  | nil => simp at hj
  | cons a t ih =>
    have ha : (g a).length = L := hg a (List.mem_cons_self a t)
    match j with
    | 0 =>
      simp only [Nat.mul_zero, List.drop_zero, List.flatMap_cons, List.getD_cons_zero]
      rw [List.take_append_of_le_length (by omega), ← ha, List.take_length]
    | j + 1 =>
      simp only [List.flatMap_cons, List.getD_cons_succ]
      rw [List.drop_append_eq_append_drop,
        List.drop_eq_nil_of_le (by rw [ha, Nat.mul_succ]; omega), List.nil_append, ha]
      have hLj : L * (j + 1) - L = L * j := by rw [Nat.mul_succ]; omega
      rw [hLj]
      exact ih (fun b hb => hg b (List.mem_cons_of_mem a hb)) j (by simpa using hj)

/-- `getD` of a `List.range` map. -/
theorem getD_map_range {β : Type} (g : ℕ → β) (n j : ℕ) (hj : j < n) (dflt : β) :
    ((List.range n).map g).getD j dflt = g j := by
  simp [List.getD_eq_getElem?_getD, List.getElem?_map, List.getElem?_range hj]

/-! ## C3 — surfedge sign resolution -/

/-- A map whose edge list has `edge[3] = (v0 = 5, v1 = 9)`, and the two
surfedge values `3` and `-3` referencing it. -/
def edgeResolutionMap : BSPMap :=
  { edges := [⟨0, 0⟩, ⟨0, 0⟩, ⟨0, 0⟩, ⟨5, 9⟩], surfedges := [3, -3] }

/-- A face whose loop walks exactly those two surfedges. -/
def edgeResolutionFace : Face :=
  { planenum := 0, side := 0, firstedge := 0, numedges := 2, texinfo := 0,
    styles := [0, 0, 0, 0], lightofs := -1 }

/-- C3: every entry of a face's resolved vertex loop follows the sign
rule: a non-negative surfedge value `se` selects `edges[se].v0`, a
negative one selects `edges[-se].v1`.  (Both `buildMeshes` and
`faceLightmapExtents` build their loops through `faceLoop`, whose inline
loop this equation characterizes.) -/
theorem surfedge_resolution (m : BSPMap) (f : Face) (i : ℕ)
    (h : i < f.numedges.toNat) :
    (faceLoop m f).getD i 0 =
      (if 0 ≤ m.surfedges.getD (f.firstedge + (i : ℤ)).toNat 0 then
        (m.edges.getD (m.surfedges.getD (f.firstedge + (i : ℤ)).toNat 0).toNat default).v0
      else
        (m.edges.getD (-(m.surfedges.getD (f.firstedge + (i : ℤ)).toNat 0)).toNat default).v1) := by
  rw [faceLoop, getD_map_range _ _ _ h]
  rfl

/-- Witness for C3: with `edge[3] = (5, 9)`, surfedge value `3` resolves
to vertex index 5 and surfedge value `-3` resolves to vertex index 9. -/
theorem surfedge_resolution_witness :
    (faceLoop edgeResolutionMap edgeResolutionFace).getD 0 0 = 5 ∧
    (faceLoop edgeResolutionMap edgeResolutionFace).getD 1 0 = 9 := by
  constructor
  · rw [surfedge_resolution edgeResolutionMap edgeResolutionFace 0 (by decide)]; decide
  · rw [surfedge_resolution edgeResolutionMap edgeResolutionFace 1 (by decide)]; decide

/-! ## C4 — fan triangulation and base UVs -/

/-- The claim's description of the UV divisor, following the spec's words:
the referenced texture's width/height, the divisor defaulting to 1 when
the texture is absent or reports a non-positive dimension. -/
def specDivisor (m : BSPMap) (ti : TexInfo) : ℚ × ℚ :=
  ((if 0 ≤ ti.miptex ∧ ti.miptex < (m.textures.length : ℤ) ∧
        0 < (m.textures.getD ti.miptex.toNat default).width then
      ((m.textures.getD ti.miptex.toNat default).width : ℚ)
    else 1),
   (if 0 ≤ ti.miptex ∧ ti.miptex < (m.textures.length : ℤ) ∧
        0 < (m.textures.getD ti.miptex.toNat default).height then
      ((m.textures.getD ti.miptex.toNat default).height : ℚ)
    else 1))

/-- The claim's description of one emitted mesh vertex: position, then
the s/t projection divided by the texture size, with `v = 1 - v`. -/
def specVertex (m : BSPMap) (ti : TexInfo) (vi : ℕ) : List ℚ :=
  let p := m.vertices.getD vi default
  [p.x, p.y, p.z,
   (computeST p ti).1 / (specDivisor m ti).1,
   1 - (computeST p ti).2 / (specDivisor m ti).2]

theorem texDivisor_eq_spec (m : BSPMap) (ti : TexInfo) :
    texDivisor m (meshTextureIndex m ti) = specDivisor m ti := by
  by_cases h : 0 ≤ ti.miptex ∧ ti.miptex < (m.textures.length : ℤ)
  · have hmi : meshTextureIndex m ti = ti.miptex := by unfold meshTextureIndex; rw [if_pos h]
    rw [hmi]; unfold texDivisor specDivisor
    rw [if_pos h.1]
    simp only [Prod.mk.injEq]
    constructor
    · rcases Nat.eq_zero_or_pos (m.textures.getD ti.miptex.toNat default).width with hw | hw
      · rw [if_pos hw, if_neg fun hc => absurd (hw ▸ hc.2.2) (lt_irrefl 0)]
      · rw [if_neg (by omega), if_pos ⟨h.1, h.2, hw⟩]
    · rcases Nat.eq_zero_or_pos (m.textures.getD ti.miptex.toNat default).height with hw | hw
      · rw [if_pos hw, if_neg fun hc => absurd (hw ▸ hc.2.2) (lt_irrefl 0)]
      · rw [if_neg (by omega), if_pos ⟨h.1, h.2, hw⟩]
  · have hmi : meshTextureIndex m ti = -1 := by unfold meshTextureIndex; rw [if_neg h]
    rw [hmi]; unfold texDivisor specDivisor
    rw [if_neg (by norm_num)]
    simp only [Prod.mk.injEq]
    constructor <;> · rw [if_neg (by tauto)]

theorem addVertex_eq_specVertex (m : BSPMap) (ti : TexInfo) (vi : ℕ) :
    addVertex m ti (texDivisor m (meshTextureIndex m ti)).1
      (texDivisor m (meshTextureIndex m ti)).2 vi = specVertex m ti vi := by
  rw [texDivisor_eq_spec]; rfl

/-- C4: a face whose resolved loop has `n ≥ 3` vertices produces exactly
`15·(n-2)` floats (three 5-float vertices per fan triangle), and the
`j`-th emitted triangle is `(loop[0], loop[j+1], loop[j+2])` with every
vertex's UV equal to the claim's projection formula (`u = s/w`,
`v = 1 - t/h`, divisors defaulting to 1 without a usable texture). -/
theorem fan_triangulation (m : BSPMap) (f : Face)
    (h3 : 3 ≤ (faceLoop m f).length) :
    (buildMesh m f).vertices.length = 15 * ((faceLoop m f).length - 2) ∧
    ∀ j < (faceLoop m f).length - 2,
      ((buildMesh m f).vertices.drop (15 * j)).take 15 =
        specVertex m (m.texinfos.getD f.texinfo.toNat default) ((faceLoop m f).getD 0 0) ++
        specVertex m (m.texinfos.getD f.texinfo.toNat default) ((faceLoop m f).getD (j + 1) 0) ++
        specVertex m (m.texinfos.getD f.texinfo.toNat default) ((faceLoop m f).getD (j + 2) 0) := by
  have hmesh : (buildMesh m f).vertices =
      (List.range ((faceLoop m f).length - 2)).flatMap fun j =>
        addVertex m (m.texinfos.getD f.texinfo.toNat default)
          (texDivisor m (meshTextureIndex m (m.texinfos.getD f.texinfo.toNat default))).1
          (texDivisor m (meshTextureIndex m (m.texinfos.getD f.texinfo.toNat default))).2
          ((faceLoop m f).getD 0 0) ++
        addVertex m (m.texinfos.getD f.texinfo.toNat default)
          (texDivisor m (meshTextureIndex m (m.texinfos.getD f.texinfo.toNat default))).1
          (texDivisor m (meshTextureIndex m (m.texinfos.getD f.texinfo.toNat default))).2
          ((faceLoop m f).getD (j + 1) 0) ++
        addVertex m (m.texinfos.getD f.texinfo.toNat default)
          (texDivisor m (meshTextureIndex m (m.texinfos.getD f.texinfo.toNat default))).1
          (texDivisor m (meshTextureIndex m (m.texinfos.getD f.texinfo.toNat default))).2
          ((faceLoop m f).getD (j + 2) 0) := by
    rw [buildMesh, if_neg (by omega)]
  have hlen5 : ∀ (ti : TexInfo) (w h : ℚ) (vi : ℕ), (addVertex m ti w h vi).length = 5 := by
    intro ti w h vi; rfl
  have hgl : ∀ a ∈ List.range ((faceLoop m f).length - 2),
      ((fun j =>
        addVertex m (m.texinfos.getD f.texinfo.toNat default)
          (texDivisor m (meshTextureIndex m (m.texinfos.getD f.texinfo.toNat default))).1
          (texDivisor m (meshTextureIndex m (m.texinfos.getD f.texinfo.toNat default))).2
          ((faceLoop m f).getD 0 0) ++
        addVertex m (m.texinfos.getD f.texinfo.toNat default)
          (texDivisor m (meshTextureIndex m (m.texinfos.getD f.texinfo.toNat default))).1
          (texDivisor m (meshTextureIndex m (m.texinfos.getD f.texinfo.toNat default))).2
          ((faceLoop m f).getD (a + 1) 0) ++
        addVertex m (m.texinfos.getD f.texinfo.toNat default)
          (texDivisor m (meshTextureIndex m (m.texinfos.getD f.texinfo.toNat default))).1
          (texDivisor m (meshTextureIndex m (m.texinfos.getD f.texinfo.toNat default))).2
          ((faceLoop m f).getD (a + 2) 0)) a).length = 15 := by
    intro a _; simp [List.length_append, hlen5]
  constructor
  · rw [hmesh, flatMap_uniform_length _ _ 15 hgl, List.length_range]; ring
  · intro j hj
    have hr : (List.range ((faceLoop m f).length - 2)).getD j 0 = j := by
      simp [List.getD_eq_getElem?_getD, List.getElem?_range hj]
    rw [hmesh, flatMap_uniform_extract _ _ 15 hgl j (by simpa using hj) 0]
    simp only [hr, addVertex_eq_specVertex]

/-- A single-triangle map: vertices (0,0,0), (1,0,0), (0,1,0), a texinfo
with `s = (1,0,0,0)`, `t = (0,1,0,0)` and a 1×1 texture. -/
def triMap : BSPMap :=
  { vertices := [⟨0, 0, 0⟩, ⟨1, 0, 0⟩, ⟨0, 1, 0⟩]
    edges := [⟨0, 1⟩, ⟨1, 2⟩, ⟨2, 0⟩]
    surfedges := [0, 1, 2]
    faces := [{ planenum := 0, side := 0, firstedge := 0, numedges := 3, texinfo := 0,
                styles := [0, 0, 0, 0], lightofs := -1 }]
    texinfos := [{ s0 := 1, s1 := 0, s2 := 0, s3 := 0, t0 := 0, t1 := 1, t2 := 0, t3 := 0,
                   miptex := 0, flags := 0 }]
    textures := [{ name := "t", width := 1, height := 1, indices := [] }] }

def triFace : Face := triMap.faces.getD 0 default

/-- Witness for C4: the single triangular face yields exactly 3 mesh
vertices (15 floats), with `u = x` and `v = 1 - y`. -/
theorem fan_triangulation_witness :
    (buildMesh triMap triFace).vertices.length = 15 ∧
    ((buildMesh triMap triFace).vertices.drop 0).take 15 =
      [0, 0, 0, 0, 1, 1, 0, 0, 1, 1, 0, 1, 0, 0, 0] := by
  constructor
  · rw [(fan_triangulation triMap triFace (by decide)).1]; decide
  · rw [show (0 : ℕ) = 15 * 0 by norm_num,
      (fan_triangulation triMap triFace (by decide)).2 0 (by decide)]
    norm_num [specVertex, specDivisor, computeST, triMap, triFace, faceLoop,
      resolveSurfedge, List.range_succ, Int.toNat_ofNat, List.getElem?_cons_succ,
      List.getElem?_cons_zero, Option.getD_some,
      show (0 : ℤ).toNat = 0 from rfl, show (1 : ℤ).toNat = 1 from rfl,
      show (2 : ℤ).toNat = 2 from rfl]

/-! ## `BuildLightmaps` case analysis -/

theorem BuildLightmaps_skip (m : BSPMap)
    (h : m.faces.length = 0 ∨ m.meshes.length ≠ m.faces.length) :
    BuildLightmaps m = m := by
  unfold BuildLightmaps; rw [if_pos h]

theorem BuildLightmaps_zero (m : BSPMap)
    (hns : ¬(m.faces.length = 0 ∨ m.meshes.length ≠ m.faces.length))
    (hz : totalArea (lmFaceLM m) = 0) :
    BuildLightmaps m =
      { m with lmAtlas := {},
               meshes := m.meshes.map fun mesh =>
                 { mesh with vertices := expandZero mesh.vertices } } := by
  unfold BuildLightmaps; rw [if_neg hns, if_pos hz]

theorem BuildLightmaps_abort (m : BSPMap)
    (hns : ¬(m.faces.length = 0 ∨ m.meshes.length ≠ m.faces.length))
    (hz : totalArea (lmFaceLM m) ≠ 0)
    (hg : growAtlas 32 1024 1024 (lmBlocks (lmFaceLM m)) = none) :
    BuildLightmaps m = { m with lmAtlas := {} } := by
  unfold BuildLightmaps; rw [if_neg hns, if_neg hz, hg]

theorem BuildLightmaps_built (m : BSPMap)
    (hns : ¬(m.faces.length = 0 ∨ m.meshes.length ≠ m.faces.length))
    (hz : totalArea (lmFaceLM m) ≠ 0) (aW aH : ℤ)
    (hg : growAtlas 32 1024 1024 (lmBlocks (lmFaceLM m)) = some (aW, aH)) :
    BuildLightmaps m =
      { m with
        lmAtlas := { width := aW, height := aH,
                     rgba := fillAtlas m (packRects m (lmFaceLM m) aW aH) aW aH,
                     perFace := packRects m (lmFaceLM m) aW aH },
        meshes := (List.range m.faces.length).map fun fi =>
          expandMesh m (lmFaceLM m) (packRects m (lmFaceLM m) aW aH) aW aH fi
            (m.meshes.getD fi default) } := by
  unfold BuildLightmaps; rw [if_neg hns, if_neg hz, hg]

/-- A fold whose step appends exactly one element grows the carried list
by the length of the input. -/
theorem foldl_step_length {α σ : Type} (step : List α × σ → ℕ → List α × σ)
    (hstep : ∀ acc i, (step acc i).1.length = acc.1.length + 1)
    (l : List ℕ) (acc : List α × σ) :
    ((l.foldl step acc).1).length = acc.1.length + l.length := by
  induction l generalizing acc with
  | nil => simp
  | cons a t ih => rw [List.foldl_cons, ih, hstep, List.length_cons]; omega

theorem packRects_length (m : BSPMap) (faceLM : List FaceLM) (aW aH : ℤ) :
    (packRects m faceLM aW aH).length = m.faces.length := by
  unfold packRects
  rw [foldl_step_length _ (fun acc i => by dsimp only; split_ifs <;> simp) _ _]
  simp

/-! ## C2 — mesh/face and perFace/face index alignment -/

/-- The conditions under which `BuildLightmaps` actually builds an atlas:
the 1:1 precondition holds with at least one face, some face qualifies
for a lightmap, and the sizing loop succeeds under the 8192 ceiling. -/
def lmBuilt (m : BSPMap) : Prop :=
  (m.faces.length ≠ 0 ∧ m.meshes.length = m.faces.length) ∧
  totalArea (lmFaceLM m) ≠ 0 ∧
  (growAtlas 32 1024 1024 (lmBlocks (lmFaceLM m))).isSome = true

instance (m : BSPMap) : Decidable (lmBuilt m) := by
  unfold lmBuilt; infer_instance

/-- Counterexample for C2: a single-face map whose face has
`lightofs = -1` (no lightmap data).  The load pipeline
(`buildMeshes` then `BuildLightmaps`) takes the zero-area early exit,
which clears the atlas: `perFace` is empty while `faces` has one entry,
so `lmAtlas.perFace.length == faces.length` fails. -/
theorem perFace_alignment_cex :
    (BuildLightmaps (buildMeshes triMap)).lmAtlas.perFace.length ≠
      (BuildLightmaps (buildMeshes triMap)).faces.length := by
  decide

/-- C2 (amended): after a load, `meshes.length = faces.length` always
holds; `lmAtlas.perFace.length = faces.length` holds whenever an atlas is
actually built, and otherwise (no qualifying face, or atlas abort, or no
faces) `perFace` is empty. -/
theorem meshes_faces_alignment (m : BSPMap) (hA : m.lmAtlas.perFace = []) :
    (buildMeshes m).meshes.length = m.faces.length ∧
    (lmBuilt (buildMeshes m) →
      (BuildLightmaps (buildMeshes m)).lmAtlas.perFace.length = m.faces.length) ∧
    (¬lmBuilt (buildMeshes m) →
      (BuildLightmaps (buildMeshes m)).lmAtlas.perFace = []) := by
  have hmlen : (buildMeshes m).meshes.length = m.faces.length := by
    simp [buildMeshes]
  refine ⟨hmlen, ?_, ?_⟩
  · intro hb
    obtain ⟨⟨hne, h11⟩, hz, hg⟩ := hb
    rcases Option.isSome_iff_exists.mp hg with ⟨p, hp⟩
    rcases p with ⟨aW, aH⟩
    rw [BuildLightmaps_built (buildMeshes m) (by push_neg; exact ⟨hne, h11⟩) hz aW aH hp]
    simpa using packRects_length (buildMeshes m) (lmFaceLM (buildMeshes m)) aW aH
  · intro hb
    by_cases hsk : (buildMeshes m).faces.length = 0 ∨
        (buildMeshes m).meshes.length ≠ (buildMeshes m).faces.length
    · rw [BuildLightmaps_skip _ hsk]
      show (buildMeshes m).lmAtlas.perFace = []
      simpa [buildMeshes] using hA
    · by_cases hz : totalArea (lmFaceLM (buildMeshes m)) = 0
      · rw [BuildLightmaps_zero _ hsk hz]
      · rcases hOpt : growAtlas 32 1024 1024 (lmBlocks (lmFaceLM (buildMeshes m))) with _ | p
        · rw [BuildLightmaps_abort _ hsk hz hOpt]
        · exfalso
          push_neg at hsk
          exact hb ⟨hsk, hz, by rw [hOpt]; rfl⟩

/-- Witness for C2: on the single-triangle map the pipeline keeps
`meshes` 1:1 with `faces`, and (no face qualifying for a lightmap)
leaves `perFace` empty. -/
theorem meshes_faces_alignment_witness :
    (buildMeshes triMap).meshes.length = triMap.faces.length ∧
    (BuildLightmaps (buildMeshes triMap)).lmAtlas.perFace = [] :=
  ⟨(meshes_faces_alignment triMap (by decide)).1,
   (meshes_faces_alignment triMap (by decide)).2.2 (by decide)⟩

/-! ## C1 — the unconditional 5-float → 7-float stride rewrite -/

/-- The precondition-failure condition of `BuildLightmaps` (line 90):
no faces, or the mesh array is not 1:1 with the face array. -/
def lmSkips (m : BSPMap) : Prop :=
  m.faces.length = 0 ∨ m.meshes.length ≠ m.faces.length

instance (m : BSPMap) : Decidable (lmSkips m) := by
  unfold lmSkips; infer_instance

/-- The atlas-ceiling abort condition (line 147): some face qualifies but
the sizing loop exceeds 8192. -/
def lmAborts (m : BSPMap) : Prop :=
  totalArea (lmFaceLM m) ≠ 0 ∧
  growAtlas 32 1024 1024 (lmBlocks (lmFaceLM m)) = none

instance (m : BSPMap) : Decidable (lmAborts m) := by
  unfold lmAborts; infer_instance

/-- `getD` inside the `k`-th `L`-sized chunk of a flat buffer. -/
theorem getD_chunk {α : Type} (l : List α) (n i L : ℕ) (hi : i < L) (d : α) :
    ((l.drop n).take L).getD i d = l.getD (n + i) d := by
  rw [List.getD_eq_getElem?_getD, List.getD_eq_getElem?_getD, List.getElem?_take,
    if_pos hi, List.getElem?_drop]

/-- `getD` of a mapped list under its length. -/
theorem getD_map_lt {α β : Type} (f : α → β) (l : List α) (fi : ℕ)
    (hfi : fi < l.length) (d : β) (d' : α) :
    (l.map f).getD fi d = f (l.getD fi d') := by
  rw [List.getD_eq_getElem?_getD, List.getElem?_map, List.getD_eq_getElem?_getD,
    List.getElem?_eq_getElem hfi]
  rfl

theorem expandZero_length (v : List ℚ) :
    (expandZero v).length = (chunks5 v).length * 7 :=
  flatMap_uniform_length _ _ 7 fun _ _ => rfl

theorem expandZero_uv (v : List ℚ) (k : ℕ) (hk : k < (chunks5 v).length) :
    (expandZero v).getD (7 * k + 5) 0 = 0 ∧ (expandZero v).getD (7 * k + 6) 0 = 0 := by
  have he := flatMap_uniform_extract (chunks5 v)
    (fun t => [t.1, t.2.1, t.2.2.1, t.2.2.2.1, t.2.2.2.2, 0, 0]) 7
    (fun _ _ => rfl) k hk default
  constructor
  · rw [← getD_chunk (expandZero v) (7 * k) 5 7 (by norm_num) 0]
    rw [show expandZero v = (chunks5 v).flatMap
      (fun t => [t.1, t.2.1, t.2.2.1, t.2.2.2.1, t.2.2.2.2, 0, 0]) from rfl, he]
    rfl
  · rw [← getD_chunk (expandZero v) (7 * k) 6 7 (by norm_num) 0]
    rw [show expandZero v = (chunks5 v).flatMap
      (fun t => [t.1, t.2.1, t.2.2.1, t.2.2.2.1, t.2.2.2.2, 0, 0]) from rfl, he]
    rfl

theorem expandMesh_length (m : BSPMap) (faceLM : List FaceLM)
    (rects : List LightmapRect) (aW aH : ℤ) (fi : ℕ) (mesh : BSPMesh) :
    (expandMesh m faceLM rects aW aH fi mesh).vertices.length =
      (chunks5 mesh.vertices).length * 7 :=
  flatMap_uniform_length _ _ 7 fun _ _ => rfl

theorem expandChunk_uv (ti : TexInfo) (sminA tminA : ℚ) (w h : ℤ)
    (rect : LightmapRect) (aW aH : ℤ) (t : ℚ × ℚ × ℚ × ℚ × ℚ)
    (hvalid : rect.valid = false) :
    (expandChunk ti sminA tminA w h rect aW aH t).getD 5 0 = 0 ∧
    (expandChunk ti sminA tminA w h rect aW aH t).getD 6 0 = 0 := by
  have hfalse : ¬(rect.valid = true ∧ 0 < w ∧ 0 < h) := by
    rw [hvalid]; rintro ⟨hc, -⟩; exact Bool.false_ne_true hc
  constructor
  · show (if (rect.valid = true ∧ 0 < w ∧ 0 < h) then _ else ((0 : ℚ), (0 : ℚ))).1 = 0
    rw [if_neg hfalse]
  · show (if (rect.valid = true ∧ 0 < w ∧ 0 < h) then _ else ((0 : ℚ), (0 : ℚ))).2 = 0
    rw [if_neg hfalse]

theorem expandMesh_uv (m : BSPMap) (faceLM : List FaceLM)
    (rects : List LightmapRect) (aW aH : ℤ) (fi : ℕ) (mesh : BSPMesh)
    (hvalid : (rects.getD fi default).valid = false) (k : ℕ)
    (hk : k < (chunks5 mesh.vertices).length) :
    (expandMesh m faceLM rects aW aH fi mesh).vertices.getD (7 * k + 5) 0 = 0 ∧
    (expandMesh m faceLM rects aW aH fi mesh).vertices.getD (7 * k + 6) 0 = 0 := by
  have he := flatMap_uniform_extract (chunks5 mesh.vertices)
    (expandChunk (m.texinfos.getD (m.faces.getD fi default).texinfo.toNat default)
      (if (faceLM.getD fi default).hasLM then (faceLM.getD fi default).sminA else 0)
      (if (faceLM.getD fi default).hasLM then (faceLM.getD fi default).tminA else 0)
      (if (faceLM.getD fi default).hasLM then (faceLM.getD fi default).w else 1)
      (if (faceLM.getD fi default).hasLM then (faceLM.getD fi default).h else 1)
      (rects.getD fi default) aW aH) 7 (fun _ _ => rfl) k hk default
  constructor
  · rw [← getD_chunk _ (7 * k) 5 7 (by norm_num) 0,
      show (expandMesh m faceLM rects aW aH fi mesh).vertices =
        (chunks5 mesh.vertices).flatMap
          (expandChunk (m.texinfos.getD (m.faces.getD fi default).texinfo.toNat default)
            (if (faceLM.getD fi default).hasLM then (faceLM.getD fi default).sminA else 0)
            (if (faceLM.getD fi default).hasLM then (faceLM.getD fi default).tminA else 0)
            (if (faceLM.getD fi default).hasLM then (faceLM.getD fi default).w else 1)
            (if (faceLM.getD fi default).hasLM then (faceLM.getD fi default).h else 1)
            (rects.getD fi default) aW aH) from rfl, he]
    exact (expandChunk_uv _ _ _ _ _ _ _ _ _ hvalid).1
  · rw [← getD_chunk _ (7 * k) 6 7 (by norm_num) 0,
      show (expandMesh m faceLM rects aW aH fi mesh).vertices =
        (chunks5 mesh.vertices).flatMap
          (expandChunk (m.texinfos.getD (m.faces.getD fi default).texinfo.toNat default)
            (if (faceLM.getD fi default).hasLM then (faceLM.getD fi default).sminA else 0)
            (if (faceLM.getD fi default).hasLM then (faceLM.getD fi default).tminA else 0)
            (if (faceLM.getD fi default).hasLM then (faceLM.getD fi default).w else 1)
            (if (faceLM.getD fi default).hasLM then (faceLM.getD fi default).h else 1)
            (rects.getD fi default) aW aH) from rfl, he]
    exact (expandChunk_uv _ _ _ _ _ _ _ _ _ hvalid).2

/-- Counterexample for C1: a map whose mesh array is not 1:1 with its
face array (two faces, one 5-float mesh).  `BuildLightmaps` takes the
skip path and leaves the vertex buffer at 5 floats, which is not a
multiple of 7 — the claimed unconditional stride rewrite does not
happen. -/
def mismatchMap : BSPMap :=
  { faces := [default, default], meshes := [{ vertices := [0, 0, 0, 0, 0] }] }

theorem stride_rewrite_cex :
    ((BuildLightmaps mismatchMap).meshes.map fun me => me.vertices.length) = [5] ∧
    5 % 7 ≠ 0 := by
  constructor <;> decide

/-- C1 (amended): when the 1:1 precondition fails or atlas construction
aborts at the 8192 ceiling, `BuildLightmaps` leaves every vertex buffer
untouched (still 5-float); in every other case it rewrites every mesh to
7-float tuples, with `u1 = v1 = 0` for every vertex of a face without a
valid atlas rectangle. -/
theorem stride_rewrite (m : BSPMap) :
    ((lmSkips m ∨ lmAborts m) → (BuildLightmaps m).meshes = m.meshes) ∧
    (¬lmSkips m → ¬lmAborts m →
      (∀ fi < (BuildLightmaps m).meshes.length,
        ((BuildLightmaps m).meshes.getD fi default).vertices.length % 7 = 0) ∧
      (∀ fi < (BuildLightmaps m).meshes.length,
        ((BuildLightmaps m).lmAtlas.perFace.getD fi default).valid = false →
        ∀ k, 7 * k + 6 < ((BuildLightmaps m).meshes.getD fi default).vertices.length →
          ((BuildLightmaps m).meshes.getD fi default).vertices.getD (7 * k + 5) 0 = 0 ∧
          ((BuildLightmaps m).meshes.getD fi default).vertices.getD (7 * k + 6) 0 = 0)) := by
  constructor
  · intro h
    by_cases hsk : lmSkips m
    · rw [BuildLightmaps_skip m hsk]
    · rcases h with h | ⟨hz, hg⟩
      · exact absurd h hsk
      · rw [BuildLightmaps_abort m hsk hz hg]
  · intro hsk hab
    by_cases hz : totalArea (lmFaceLM m) = 0
    · rw [BuildLightmaps_zero m hsk hz]
      constructor
      · intro fi hfi
        rw [List.length_map] at hfi
        rw [getD_map_lt _ _ fi hfi default default]
        show (expandZero ((m.meshes.getD fi default).vertices)).length % 7 = 0
        rw [expandZero_length]
        exact Nat.mul_mod_left _ 7
      · intro fi hfi _ k hk
        rw [List.length_map] at hfi
        rw [getD_map_lt _ _ fi hfi default default] at hk ⊢
        have hlen : (expandZero ((m.meshes.getD fi default).vertices)).length =
            (chunks5 ((m.meshes.getD fi default).vertices)).length * 7 := expandZero_length _
        exact expandZero_uv _ k (by rw [hlen] at hk; omega)
    · rcases hOpt : growAtlas 32 1024 1024 (lmBlocks (lmFaceLM m)) with _ | ⟨aW, aH⟩
      · exact absurd ⟨hz, hOpt⟩ hab
      · rw [BuildLightmaps_built m hsk hz aW aH hOpt]
        constructor
        · intro fi hfi
          rw [List.length_map, List.length_range] at hfi
          show ((((List.range m.faces.length).map fun fi =>
            expandMesh m (lmFaceLM m) (packRects m (lmFaceLM m) aW aH) aW aH fi
              (m.meshes.getD fi default)).getD fi default).vertices).length % 7 = 0
          rw [getD_map_range _ _ fi hfi default, expandMesh_length]
          exact Nat.mul_mod_left _ 7
        · intro fi hfi hvalid k hk
          rw [List.length_map, List.length_range] at hfi
          rw [getD_map_range _ _ fi hfi default] at hk ⊢
          have hlen := expandMesh_length m (lmFaceLM m)
            (packRects m (lmFaceLM m) aW aH) aW aH fi (m.meshes.getD fi default)
          exact expandMesh_uv m (lmFaceLM m) (packRects m (lmFaceLM m) aW aH) aW aH fi
            (m.meshes.getD fi default) hvalid k (by rw [hlen] at hk; omega)

/-- Witness for C1: the single-triangle pipeline map (its one face has no
lightmap data) gets its mesh rewritten from 15 to 21 floats, a multiple
of 7, with the appended `u1 = v1 = 0`. -/
theorem stride_rewrite_witness :
    ((BuildLightmaps (buildMeshes triMap)).meshes.getD 0 default).vertices.length % 7 = 0 ∧
    ((BuildLightmaps (buildMeshes triMap)).meshes.getD 0 default).vertices.getD 5 0 = 0 ∧
    ((BuildLightmaps (buildMeshes triMap)).meshes.getD 0 default).vertices.getD 6 0 = 0 := by
  have h := (stride_rewrite (buildMeshes triMap)).2 (by decide) (by decide)
  refine ⟨h.1 0 (by decide), ?_, ?_⟩
  · have := (h.2 0 (by decide) (by decide) 0 (by decide)).1
    simpa using this
  · have := (h.2 0 (by decide) (by decide) 0 (by decide)).2
    simpa using this

/-! ## C8 — shelf-packing capacity and atlas growth -/

theorem packRun_append (st : ShelfPacker) (l1 l2 : List (ℤ × ℤ)) :
    packRun st (l1 ++ l2) = (packRun st l1).bind fun st2 => packRun st2 l2 := by
  induction l1 generalizing st with
  | nil => rfl
  | cons b t ih =>
    rcases b with ⟨w, h⟩
    simp only [List.cons_append, packRun, List.append_eq]
    by_cases hok : (st.place w h).1
    · rw [if_pos hok, if_pos hok, ih]
    · rw [if_neg hok, if_neg hok]; rfl

/-- C8: shelf-packing `N` 32×32 blocks into the initial 1024×1024 atlas
succeeds exactly when `N ≤ 1024`; for 1025 blocks the sizing loop doubles
the smaller dimension (1024×1024 → 2048×1024) and succeeds there. -/
theorem shelf_capacity_and_growth :
    (∀ N : ℕ,
      (packRun ⟨1024, 1024, 0, 0, 0⟩ (List.replicate N ((32 : ℤ), (32 : ℤ)))).isSome = true ↔
        N ≤ 1024) ∧
    growAtlas 32 1024 1024 (List.replicate 1025 ((32 : ℤ), (32 : ℤ))) = some (2048, 1024) := by
  have h1024 : (packRun ⟨1024, 1024, 0, 0, 0⟩
      (List.replicate 1024 ((32 : ℤ), (32 : ℤ)))).isSome = true := by decide
  have h1025 : packRun ⟨1024, 1024, 0, 0, 0⟩
      (List.replicate 1025 ((32 : ℤ), (32 : ℤ))) = none := by decide
  constructor
  · intro N
    constructor
    · intro hN
      by_contra hle
      push_neg at hle
      have hsplit : List.replicate N ((32 : ℤ), (32 : ℤ)) =
          List.replicate 1025 ((32 : ℤ), (32 : ℤ)) ++
          List.replicate (N - 1025) ((32 : ℤ), (32 : ℤ)) := by
        rw [← List.replicate_add]; congr 1; omega
      rw [hsplit, packRun_append, h1025] at hN
      simp at hN
    · intro hle
      have hsplit : List.replicate 1024 ((32 : ℤ), (32 : ℤ)) =
          List.replicate N ((32 : ℤ), (32 : ℤ)) ++
          List.replicate (1024 - N) ((32 : ℤ), (32 : ℤ)) := by
        rw [← List.replicate_add]; congr 1; omega
      rw [hsplit, packRun_append] at h1024
      cases hopt : packRun ⟨1024, 1024, 0, 0, 0⟩
          (List.replicate N ((32 : ℤ), (32 : ℤ))) with
      | none => rw [hopt] at h1024; simp at h1024
      | some _ => rfl
  · decide

/-- Witness for C8: a small instance, 7 blocks pack into the fresh
1024×1024 atlas. -/
theorem shelf_capacity_witness :
    (packRun ⟨1024, 1024, 0, 0, 0⟩ (List.replicate 7 ((32 : ℤ), (32 : ℤ)))).isSome = true :=
  (shelf_capacity_and_growth.1 7).mpr (by norm_num)

/-! ## `loadBSP` case lemmas -/

theorem loadBSP_err_vertex (d : List ℕ) (h : 124 ≤ d.length)
    (h1 : (span d 3).2 % 12 ≠ 0) : loadBSP d = (none, "Bad vertex lump size") := by
  unfold loadBSP
  rw [if_neg (Nat.not_lt.mpr h), if_pos h1]

theorem loadBSP_err_edges (d : List ℕ) (h : 124 ≤ d.length)
    (h1 : (span d 3).2 % 12 = 0) (h2 : (span d 12).2 % 4 ≠ 0) :
    loadBSP d = (none, "Bad edges lump size") := by
  unfold loadBSP
  rw [if_neg (Nat.not_lt.mpr h), if_neg (by simp [h1]), if_pos h2]

theorem loadBSP_err_surfedges (d : List ℕ) (h : 124 ≤ d.length)
    (h1 : (span d 3).2 % 12 = 0) (h2 : (span d 12).2 % 4 = 0)
    (h3 : (span d 13).2 % 4 ≠ 0) :
    loadBSP d = (none, "Bad surfedges lump size") := by
  unfold loadBSP
  rw [if_neg (Nat.not_lt.mpr h), if_neg (by simp [h1]), if_neg (by simp [h2]), if_pos h3]

theorem loadBSP_err_faces (d : List ℕ) (h : 124 ≤ d.length)
    (h1 : (span d 3).2 % 12 = 0) (h2 : (span d 12).2 % 4 = 0)
    (h3 : (span d 13).2 % 4 = 0) (h4 : (span d 7).2 % 20 ≠ 0) :
    loadBSP d = (none, "Bad faces lump size") := by
  unfold loadBSP
  rw [if_neg (Nat.not_lt.mpr h), if_neg (by simp [h1]), if_neg (by simp [h2]),
    if_neg (by simp [h3]), if_pos h4]

theorem loadBSP_err_texinfo (d : List ℕ) (h : 124 ≤ d.length)
    (h1 : (span d 3).2 % 12 = 0) (h2 : (span d 12).2 % 4 = 0)
    (h3 : (span d 13).2 % 4 = 0) (h4 : (span d 7).2 % 20 = 0)
    (h5 : (span d 6).2 % 40 ≠ 0) :
    loadBSP d = (none, "Bad texinfo lump size") := by
  unfold loadBSP
  rw [if_neg (Nat.not_lt.mpr h), if_neg (by simp [h1]), if_neg (by simp [h2]),
    if_neg (by simp [h3]), if_neg (by simp [h4]), if_pos h5]

theorem loadBSP_success (d : List ℕ) (h : 124 ≤ d.length)
    (h1 : (span d 3).2 % 12 = 0) (h2 : (span d 12).2 % 4 = 0)
    (h3 : (span d 13).2 % 4 = 0) (h4 : (span d 7).2 % 20 = 0)
    (h5 : (span d 6).2 % 40 = 0) :
    loadBSP d = (some (mkBMap d), verErr d) := by
  unfold loadBSP
  rw [if_neg (Nat.not_lt.mpr h), if_neg (by simp [h1]), if_neg (by simp [h2]),
    if_neg (by simp [h3]), if_neg (by simp [h4]), if_neg (by simp [h5])]

/-! ## C5 — misaligned load-critical lumps abort the load -/

/-- A 137-byte file whose vertex lump (offset 124, size 13) lies inside
the file but has a size that is not a multiple of 12. -/
def le32 (n : ℕ) : List ℕ :=
  [n % 256, n / 256 % 256, n / 65536 % 256, n / 16777216 % 256]

def fileBadVert : List ℕ :=
  le32 29 ++ List.replicate 24 0 ++ le32 124 ++ le32 13 ++
  List.replicate 88 0 ++ List.replicate 13 1

/-- C5: for each of the five load-critical lumps — vertices (12-byte
records), edges (4), surfedges (4), faces (20), texture-info (40) — a
span whose byte size is not an exact multiple of the record size aborts
the load with the error string naming that lump (checks run in this
order, so each case assumes the earlier lumps passed). -/
theorem critical_lump_alignment (d : List ℕ) (h : 124 ≤ d.length) :
    ((span d 3).2 % 12 ≠ 0 → loadBSP d = (none, "Bad vertex lump size")) ∧
    ((span d 3).2 % 12 = 0 → (span d 12).2 % 4 ≠ 0 →
      loadBSP d = (none, "Bad edges lump size")) ∧
    ((span d 3).2 % 12 = 0 → (span d 12).2 % 4 = 0 → (span d 13).2 % 4 ≠ 0 →
      loadBSP d = (none, "Bad surfedges lump size")) ∧
    ((span d 3).2 % 12 = 0 → (span d 12).2 % 4 = 0 → (span d 13).2 % 4 = 0 →
      (span d 7).2 % 20 ≠ 0 → loadBSP d = (none, "Bad faces lump size")) ∧
    ((span d 3).2 % 12 = 0 → (span d 12).2 % 4 = 0 → (span d 13).2 % 4 = 0 →
      (span d 7).2 % 20 = 0 → (span d 6).2 % 40 ≠ 0 →
      loadBSP d = (none, "Bad texinfo lump size")) :=
  ⟨loadBSP_err_vertex d h,
   loadBSP_err_edges d h,
   loadBSP_err_surfedges d h,
   loadBSP_err_faces d h,
   loadBSP_err_texinfo d h⟩

/-- Witness for C5: the concrete file with a 13-byte in-file vertex lump
is rejected with the vertex lump's error message. -/
theorem critical_lump_alignment_witness :
    loadBSP fileBadVert = (none, "Bad vertex lump size") :=
  (critical_lump_alignment fileBadVert (by decide)).1 (by decide)

/-! ## C6 — out-of-range lumps degrade to empty collections -/

theorem getD_byte_lt (d : List ℕ) (hbytes : ∀ b ∈ d, b < 256) (p : ℕ) :
    d.getD p 0 < 256 := by
  rcases Nat.lt_or_ge p d.length with hp | hp
  · rw [List.getD_eq_getElem d 0 hp]; exact hbytes _ (List.getElem_mem hp)
  · rw [List.getD_eq_default d 0 hp]; norm_num

theorem rd32_bounds (d : List ℕ) (hbytes : ∀ b ∈ d, b < 256) (p : ℕ) :
    -(2 ^ 31) ≤ rd32 d p ∧ rd32 d p < 2 ^ 31 := by
  have h0 := getD_byte_lt d hbytes p
  have h1 := getD_byte_lt d hbytes (p + 1)
  have h2 := getD_byte_lt d hbytes (p + 2)
  have h3 := getD_byte_lt d hbytes (p + 3)
  simp only [rd32, ru32]
  split_ifs with hc <;> constructor <;> omega

theorem lumpSpan_oob (fileLen : ℕ) (offset size : ℤ)
    (ho1 : -(2 ^ 31) ≤ offset) (ho2 : offset < 2 ^ 31)
    (hs1 : -(2 ^ 31) ≤ size) (hs2 : size < 2 ^ 31)
    (hoob : (fileLen : ℤ) < offset + size) :
    lumpSpan fileLen offset size = (0, 0) := by
  simp only [lumpSpan, toSizeT]
  rw [if_pos (by omega)]

theorem span_oob (d : List ℕ) (hbytes : ∀ b ∈ d, b < 256) (idx : ℕ)
    (hoob : (d.length : ℤ) < (lumpDesc d idx).1 + (lumpDesc d idx).2) :
    span d idx = (0, 0) := by
  have hb1 := rd32_bounds d hbytes (4 + 8 * idx)
  have hb2 := rd32_bounds d hbytes (8 + 8 * idx)
  exact lumpSpan_oob _ _ _ hb1.1 hb1.2 hb2.1 hb2.2 hoob

theorem loadBSP_some_eq (d : List ℕ) (h : 124 ≤ d.length) (bm : BMap)
    (hbm : (loadBSP d).1 = some bm) : bm = mkBMap d := by
  by_cases c1 : (span d 3).2 % 12 = 0
  · by_cases c2 : (span d 12).2 % 4 = 0
    · by_cases c3 : (span d 13).2 % 4 = 0
      · by_cases c4 : (span d 7).2 % 20 = 0
        · by_cases c5 : (span d 6).2 % 40 = 0
          · rw [loadBSP_success d h c1 c2 c3 c4 c5] at hbm
            exact (Option.some.inj hbm).symm
          · rw [loadBSP_err_texinfo d h c1 c2 c3 c4 c5] at hbm; simp at hbm
        · rw [loadBSP_err_faces d h c1 c2 c3 c4] at hbm; simp at hbm
      · rw [loadBSP_err_surfedges d h c1 c2 c3] at hbm; simp at hbm
    · rw [loadBSP_err_edges d h c1 c2] at hbm; simp at hbm
  · rw [loadBSP_err_vertex d h c1] at hbm; simp at hbm

/-- C6: every lump whose descriptor has `offset + size` beyond the file
length resolves to the empty span; for the load-critical lumps the empty
span passes the divisibility check (0 is a multiple of everything), so
the load is not aborted on account of that lump; and in any map the load
returns, the corresponding collection is empty. -/
theorem oob_lump_graceful (d : List ℕ) (h : 124 ≤ d.length)
    (hbytes : ∀ b ∈ d, b < 256) :
    ((d.length : ℤ) < (lumpDesc d 3).1 + (lumpDesc d 3).2 →
      span d 3 = (0, 0) ∧ (span d 3).2 % 12 = 0 ∧
      ∀ bm : BMap, (loadBSP d).1 = some bm → bm.vertices = []) ∧
    ((d.length : ℤ) < (lumpDesc d 12).1 + (lumpDesc d 12).2 →
      span d 12 = (0, 0) ∧ (span d 12).2 % 4 = 0 ∧
      ∀ bm : BMap, (loadBSP d).1 = some bm → bm.edges = []) ∧
    ((d.length : ℤ) < (lumpDesc d 13).1 + (lumpDesc d 13).2 →
      span d 13 = (0, 0) ∧ (span d 13).2 % 4 = 0 ∧
      ∀ bm : BMap, (loadBSP d).1 = some bm → bm.surfedges = []) ∧
    ((d.length : ℤ) < (lumpDesc d 7).1 + (lumpDesc d 7).2 →
      span d 7 = (0, 0) ∧ (span d 7).2 % 20 = 0 ∧
      ∀ bm : BMap, (loadBSP d).1 = some bm → bm.faces = []) ∧
    ((d.length : ℤ) < (lumpDesc d 6).1 + (lumpDesc d 6).2 →
      span d 6 = (0, 0) ∧ (span d 6).2 % 40 = 0 ∧
      ∀ bm : BMap, (loadBSP d).1 = some bm → bm.texinfos = []) ∧
    ((d.length : ℤ) < (lumpDesc d 8).1 + (lumpDesc d 8).2 →
      span d 8 = (0, 0) ∧
      ∀ bm : BMap, (loadBSP d).1 = some bm → bm.lighting = []) ∧
    ((d.length : ℤ) < (lumpDesc d 14).1 + (lumpDesc d 14).2 →
      span d 14 = (0, 0) ∧
      ∀ bm : BMap, (loadBSP d).1 = some bm → bm.models = []) ∧
    ((d.length : ℤ) < (lumpDesc d 2).1 + (lumpDesc d 2).2 →
      span d 2 = (0, 0) ∧
      ∀ bm : BMap, (loadBSP d).1 = some bm → bm.textures = []) := by
  refine ⟨fun hoob => ?_, fun hoob => ?_, fun hoob => ?_, fun hoob => ?_,
    fun hoob => ?_, fun hoob => ?_, fun hoob => ?_, fun hoob => ?_⟩ <;>
    [skip; skip; skip; skip; skip; skip; skip; skip]
  · have hsp := span_oob d hbytes 3 hoob
    refine ⟨hsp, by rw [hsp]; rfl, fun bm hbm => ?_⟩
    rw [loadBSP_some_eq d h bm hbm]
    simp [mkBMap, hsp]
  · have hsp := span_oob d hbytes 12 hoob
    refine ⟨hsp, by rw [hsp]; rfl, fun bm hbm => ?_⟩
    rw [loadBSP_some_eq d h bm hbm]
    simp [mkBMap, hsp]
  · have hsp := span_oob d hbytes 13 hoob
    refine ⟨hsp, by rw [hsp]; rfl, fun bm hbm => ?_⟩
    rw [loadBSP_some_eq d h bm hbm]
    simp [mkBMap, hsp]
  · have hsp := span_oob d hbytes 7 hoob
    refine ⟨hsp, by rw [hsp]; rfl, fun bm hbm => ?_⟩
    rw [loadBSP_some_eq d h bm hbm]
    simp [mkBMap, hsp]
  · have hsp := span_oob d hbytes 6 hoob
    refine ⟨hsp, by rw [hsp]; rfl, fun bm hbm => ?_⟩
    rw [loadBSP_some_eq d h bm hbm]
    simp [mkBMap, hsp]
  · have hsp := span_oob d hbytes 8 hoob
    refine ⟨hsp, fun bm hbm => ?_⟩
    rw [loadBSP_some_eq d h bm hbm]
    simp [mkBMap, hsp, bytesAt]
  · have hsp := span_oob d hbytes 14 hoob
    refine ⟨hsp, fun bm hbm => ?_⟩
    rw [loadBSP_some_eq d h bm hbm]
    simp [mkBMap, hsp]
  · have hsp := span_oob d hbytes 2 hoob
    refine ⟨hsp, fun bm hbm => ?_⟩
    rw [loadBSP_some_eq d h bm hbm]
    simp [mkBMap, hsp, bytesAt, decodeMiptex]

/-- A 124-byte header-only file whose 15 lump descriptors all point at
offset 200, size 4 — all past the end of the file. -/
def fileOOB : List ℕ :=
  le32 29 ++ (List.replicate 15 (le32 200 ++ le32 4)).flatten

/-- Witness for C6: with every lump descriptor out of range the load
still succeeds and the collections are empty. -/
theorem oob_lump_graceful_witness :
    span fileOOB 3 = (0, 0) ∧
    ∃ bm : BMap, (loadBSP fileOOB).1 = some bm ∧
      bm.vertices = [] ∧ bm.lighting = [] ∧ bm.textures = [] := by
  have hth := oob_lump_graceful fileOOB (by decide) (by decide)
  have h3 := hth.1 (by decide)
  refine ⟨h3.1, mkBMap fileOOB, by decide, ?_, ?_, ?_⟩
  · exact h3.2.2 _ (by decide)
  · exact (hth.2.2.2.2.2.1 (by decide)).2 _ (by decide)
  · exact (hth.2.2.2.2.2.2.2 (by decide)).2 _ (by decide)

/-! ## C7 — a version-30 file still loads, but the warning is written to
the error string -/

/-- A 156-byte file with header version 30, a 12-byte vertex lump at
offset 124 and a 20-byte face lump at offset 136 (all other lumps
empty). -/
def file30 : List ℕ :=
  le32 30 ++ List.replicate 24 0 ++ le32 124 ++ le32 12 ++ List.replicate 24 0 ++
  le32 136 ++ le32 20 ++ List.replicate 56 0 ++ List.replicate 32 1

/-- Counterexample for C7: on the concrete version-30 file, `LoadBSP`
does return a map with non-empty `vertices`/`faces` — but the version
mismatch IS surfaced via the error channel: the error out-string holds
the version message even though a map is returned. -/
theorem version30_cex :
    ((loadBSP file30).1.map fun bm => (bm.vertices.length, bm.faces.length)) =
      some (1, 1) ∧
    (loadBSP file30).2 = "Unsupported BSP version (expected 29)" := by
  constructor <;> decide

/-- C7 (amended): for any file with header version 30 whose
load-critical lumps are aligned, with non-empty vertex and face lumps,
the load returns a map with non-empty `vertices` and `faces`, and the
error string is left holding the version warning (the load succeeds
anyway — the mismatch is a warning the code continues past, but it does
occupy the error out-parameter). -/
theorem version30_soft (d : List ℕ) (h : 124 ≤ d.length)
    (hver : rd32 d 0 = 30)
    (h1 : (span d 3).2 % 12 = 0) (h2 : (span d 12).2 % 4 = 0)
    (h3 : (span d 13).2 % 4 = 0) (h4 : (span d 7).2 % 20 = 0)
    (h5 : (span d 6).2 % 40 = 0)
    (hv : (span d 3).2 ≠ 0) (hf : (span d 7).2 ≠ 0) :
    ∃ bm : BMap, (loadBSP d).1 = some bm ∧ bm.vertices ≠ [] ∧ bm.faces ≠ [] ∧
      (loadBSP d).2 = "Unsupported BSP version (expected 29)" := by
  rw [loadBSP_success d h h1 h2 h3 h4 h5]
  refine ⟨mkBMap d, rfl, ?_, ?_, ?_⟩
  · show ((List.range ((span d 3).2 / 12)).map _) ≠ []
    simp only [ne_eq, List.map_eq_nil_iff, List.range_eq_nil]
    omega
  · show ((List.range ((span d 7).2 / 20)).map _) ≠ []
    simp only [ne_eq, List.map_eq_nil_iff, List.range_eq_nil]
    omega
  · show verErr d = _
    rw [verErr, if_pos (by rw [hver]; norm_num)]

/-- Witness for C7's amended claim at the concrete version-30 file. -/
theorem version30_soft_witness :
    ∃ bm : BMap, (loadBSP file30).1 = some bm ∧ bm.vertices ≠ [] ∧ bm.faces ≠ [] ∧
      (loadBSP file30).2 = "Unsupported BSP version (expected 29)" :=
  version30_soft file30 (by decide) (by decide) (by decide) (by decide) (by decide)
    (by decide) (by decide) (by decide) (by decide)

/-! ## C10 — non-embedded miptex slots stay default -/

/-- C10: (a) the miptex lump can never abort the load — whenever the
five critical checks pass, the load succeeds; (b) any texture slot whose
stored offset is ≤ 0 or ≥ the lump size is left default-constructed:
empty name, zero width/height and, in particular, empty pixel indices. -/
theorem miptex_external_slots :
    (∀ d : List ℕ, 124 ≤ d.length →
      (span d 3).2 % 12 = 0 → (span d 12).2 % 4 = 0 → (span d 13).2 % 4 = 0 →
      (span d 7).2 % 20 = 0 → (span d 6).2 % 40 = 0 →
      (loadBSP d).1.isSome = true) ∧
    (∀ (L : List ℕ) (i : ℕ), 4 ≤ L.length → 0 ≤ rd32 L 0 →
      4 + 4 * rd32 L 0 ≤ (L.length : ℤ) → i < (rd32 L 0).toNat →
      (rd32 L (4 + 4 * i) ≤ 0 ∨ (L.length : ℤ) ≤ rd32 L (4 + 4 * i)) →
      (decodeMiptex L).length = (rd32 L 0).toNat ∧
      (decodeMiptex L).getD i default =
        { name := [], width := 0, height := 0, indices := [] }) := by
  constructor
  · intro d h h1 h2 h3 h4 h5
    rw [loadBSP_success d h h1 h2 h3 h4 h5]
    rfl
  · intro L i hL hn0 hfit hi hoff
    have hmdef : decodeMiptex L = (List.range (rd32 L 0).toNat).map (decodeMipSlot L) := by
      unfold decodeMiptex
      rw [if_pos hL, if_neg (by omega)]
    refine ⟨by rw [hmdef]; simp, ?_⟩
    rw [hmdef, getD_map_range _ _ i hi default]
    unfold decodeMipSlot
    rw [if_pos (by omega)]

/-- A 12-byte miptex lump declaring two textures, slot 0 with stored
offset 0 and slot 1 with stored offset -1: both stay default. -/
def mtLumpEx : List ℕ := [2, 0, 0, 0, 0, 0, 0, 0, 255, 255, 255, 255]

/-- Witness for C10: the load succeeds on the all-out-of-range-lumps
file, and both out-of-range slots of the concrete miptex lump decode to
the default texture with empty indices. -/
theorem miptex_external_slots_witness :
    (loadBSP fileOOB).1.isSome = true ∧
    (decodeMiptex mtLumpEx).length = 2 ∧
    (decodeMiptex mtLumpEx).getD 0 default =
      { name := [], width := 0, height := 0, indices := [] } := by
  refine ⟨miptex_external_slots.1 fileOOB (by decide) (by decide) (by decide)
    (by decide) (by decide) (by decide), ?_, ?_⟩
  · have := miptex_external_slots.2 mtLumpEx 0 (by decide) (by decide) (by decide)
      (by decide) (by decide)
    simpa using this.1
  · exact (miptex_external_slots.2 mtLumpEx 0 (by decide) (by decide) (by decide)
      (by decide) (by decide)).2

/-! ## C9 — atlas pixel fill: broadcast, white fallback, and bounded reads -/

/-- The four channel bytes of atlas pixel `(px, py)`. -/
def pixelAt (rgba : List ℕ) (aW px py : ℕ) : ℕ × ℕ × ℕ × ℕ :=
  (rgba.getD ((py * aW + px) * 4) 0, rgba.getD ((py * aW + px) * 4 + 1) 0,
   rgba.getD ((py * aW + px) * 4 + 2) 0, rgba.getD ((py * aW + px) * 4 + 3) 0)

theorem getD_set' {α : Type} (l : List α) (i j : ℕ) (a d : α) :
    (l.set i a).getD j d = if i = j ∧ j < l.length then a else l.getD j d := by
  rw [List.getD_eq_getElem?_getD, List.getElem?_set]
  by_cases hij : i = j
  · subst hij
    by_cases hl : i < l.length
    · rw [if_pos rfl, if_pos hl, if_pos ⟨rfl, hl⟩]; rfl
    · rw [if_pos rfl, if_neg hl, if_neg (by tauto)]
      rw [List.getD_eq_default _ _ (by omega)]
      rfl
  · rw [if_neg hij, if_neg (by tauto), List.getD_eq_getElem?_getD]

theorem writePixel_length (rgba : List ℕ) (aW px py v : ℕ) :
    (writePixel rgba aW px py v).length = rgba.length := by
  simp [writePixel, List.length_set]

theorem getD_writePixel (rgba : List ℕ) (aW px py v j : ℕ) :
    (writePixel rgba aW px py v).getD j 0 =
      if (py * aW + px) * 4 ≤ j ∧ j < (py * aW + px) * 4 + 4 ∧ j < rgba.length then
        (if j = (py * aW + px) * 4 + 3 then 255 else v)
      else rgba.getD j 0 := by
  simp only [writePixel]
  rw [getD_set', getD_set', getD_set', getD_set']
  simp only [List.length_set]
  split_ifs <;> omega

theorem rowFill_length (rgba : List ℕ) (aW rx rowY : ℕ) (g : ℕ → ℕ) (w : ℕ) :
    (rowFill rgba aW rx rowY g w).length = rgba.length := by
  induction w generalizing rgba with
  | zero => rfl
  | succ w ih =>
    rw [show rowFill rgba aW rx rowY g (w + 1) =
      writePixel (rowFill rgba aW rx rowY g w) aW (rx + w) rowY (g w) by
        unfold rowFill; rw [List.range_succ, List.foldl_append]; rfl]
    rw [writePixel_length, ih]

theorem fillRectWith_length (rgba : List ℕ) (aW rx ry w h : ℕ) (f : ℕ → ℕ → ℕ) :
    (fillRectWith rgba aW rx ry w h f).length = rgba.length := by
  induction h generalizing rgba with
  | zero => rfl
  | succ h ih =>
    rw [show fillRectWith rgba aW rx ry w (h + 1) f =
      rowFill (fillRectWith rgba aW rx ry w h f) aW rx (ry + h) (fun x => f x h) w by
        unfold fillRectWith; rw [List.range_succ, List.foldl_append]; rfl]
    rw [rowFill_length, ih]

/-- Row-major/column addresses inside a strided buffer are unique:
`a*n + b = c*n + d` with `b, d < n` forces `a = c` and `b = d`. -/
theorem pixel_index_inj {n a b c d : ℕ} (hb : b < n) (hd : d < n)
    (h : a * n + b = c * n + d) : a = c ∧ b = d := by
  have hn : 0 < n := by omega
  have hdiv : ∀ x y : ℕ, y < n → (x * n + y) / n = x := by
    intro x y hy
    rw [Nat.mul_comm, Nat.mul_add_div hn, Nat.div_eq_of_lt hy]
    omega
  have hac : a = c := by rw [← hdiv a b hb, ← hdiv c d hd, h]
  subst hac
  exact ⟨rfl, by omega⟩

/-- What one row-fill leaves at channel `c` of pixel `(px, py)`:
the written value on the filled row inside `[rx, rx+w)` (alpha 255,
other channels `g (px - rx)`), the old byte everywhere else. -/
theorem rowFill_getD (rgba : List ℕ) (aW rx rowY : ℕ) (g : ℕ → ℕ) (w : ℕ)
    (px py c : ℕ) (hxw : rx + w ≤ aW) (hpx : px < aW) (hc : c < 4) :
    (rowFill rgba aW rx rowY g w).getD ((py * aW + px) * 4 + c) 0 =
      if py = rowY ∧ rx ≤ px ∧ px < rx + w ∧ (py * aW + px) * 4 + c < rgba.length then
        (if c = 3 then 255 else g (px - rx))
      else rgba.getD ((py * aW + px) * 4 + c) 0 := by
  induction w with
  | zero =>
    rw [if_neg (by omega)]
    rfl
  | succ w ih =>
    rw [show rowFill rgba aW rx rowY g (w + 1) =
      writePixel (rowFill rgba aW rx rowY g w) aW (rx + w) rowY (g w) by
        unfold rowFill; rw [List.range_succ, List.foldl_append]; rfl]
    rw [getD_writePixel, rowFill_length]
    by_cases hpix : py = rowY ∧ px = rx + w
    · -- the newly written pixel
      obtain ⟨hpy, hpxe⟩ := hpix
      subst hpy; subst hpxe
      by_cases hl : (py * aW + (rx + w)) * 4 + c < rgba.length
      · rw [if_pos (by omega)]
        rw [if_pos (by omega : py = py ∧ rx ≤ rx + w ∧ rx + w < rx + (w + 1) ∧
          (py * aW + (rx + w)) * 4 + c < rgba.length)]
        by_cases hc3 : c = 3
        · rw [if_pos (by omega), if_pos hc3]
        · rw [if_neg (by omega), if_neg hc3]
          congr 1
          omega
      · rw [if_neg (by omega), if_neg (by omega), ih (by omega)]
        rw [if_neg (by omega)]
    · -- some other pixel: the new write's byte range does not cover it
      have hne : ¬((rowY * aW + (rx + w)) * 4 ≤ (py * aW + px) * 4 + c ∧
          (py * aW + px) * 4 + c < (rowY * aW + (rx + w)) * 4 + 4 ∧
          (py * aW + px) * 4 + c < rgba.length) := by
        rintro ⟨ha, hb, -⟩
        have heq : py * aW + px = rowY * aW + (rx + w) := by omega
        have := pixel_index_inj hpx (by omega) heq
        exact hpix ⟨this.1, this.2⟩
      rw [if_neg hne, ih (by omega)]
      by_cases hin : py = rowY ∧ rx ≤ px ∧ px < rx + w ∧
          (py * aW + px) * 4 + c < rgba.length
      · rw [if_pos hin, if_pos (by omega : py = rowY ∧ rx ≤ px ∧ px < rx + (w + 1) ∧
          (py * aW + px) * 4 + c < rgba.length)]
      · rw [if_neg hin, if_neg (by
          rintro ⟨ha, hb, hcc, hd⟩
          exact hin ⟨ha, hb, by
            rcases Nat.lt_or_ge px (rx + w) with hlt | hge
            · exact hlt
            · exact absurd (by omega : px = rx + w) fun hx => hpix ⟨ha, hx⟩, hd⟩)]

/-- What the whole block fill leaves at channel `c` of pixel `(px, py)`:
the written value inside the rectangle, the old byte outside it. -/
theorem fillRectWith_getD (rgba : List ℕ) (aW rx ry w h : ℕ) (f : ℕ → ℕ → ℕ)
    (px py c : ℕ) (hxw : rx + w ≤ aW) (hpx : px < aW) (hc : c < 4) :
    (fillRectWith rgba aW rx ry w h f).getD ((py * aW + px) * 4 + c) 0 =
      if ry ≤ py ∧ py < ry + h ∧ rx ≤ px ∧ px < rx + w ∧
          (py * aW + px) * 4 + c < rgba.length then
        (if c = 3 then 255 else f (px - rx) (py - ry))
      else rgba.getD ((py * aW + px) * 4 + c) 0 := by
  induction h with
  | zero =>
    rw [if_neg (by omega)]
    rfl
  | succ h ih =>
    rw [show fillRectWith rgba aW rx ry w (h + 1) f =
      rowFill (fillRectWith rgba aW rx ry w h f) aW rx (ry + h) (fun x => f x h) w by
        unfold fillRectWith; rw [List.range_succ, List.foldl_append]; rfl]
    rw [rowFill_getD _ _ _ _ _ _ _ _ _ hxw hpx hc, fillRectWith_length]
    by_cases hrow : py = ry + h
    · subst hrow
      by_cases hin : rx ≤ px ∧ px < rx + w ∧ ((ry + h) * aW + px) * 4 + c < rgba.length
      · rw [if_pos ⟨rfl, hin.1, hin.2.1, hin.2.2⟩,
          if_pos (⟨by omega, by omega, hin.1, hin.2.1, hin.2.2⟩ :
            ry ≤ ry + h ∧ ry + h < ry + (h + 1) ∧ rx ≤ px ∧ px < rx + w ∧
            ((ry + h) * aW + px) * 4 + c < rgba.length)]
        by_cases hc3 : c = 3
        · rw [if_pos hc3, if_pos hc3]
        · rw [if_neg hc3, if_neg hc3]
          congr 1
          omega
      · rw [if_neg (by tauto), ih, if_neg (by omega),
          if_neg (by rintro ⟨-, -, h3, h4, h5⟩; exact hin ⟨h3, h4, h5⟩)]
    · rw [if_neg (by tauto), ih]
      by_cases hin : ry ≤ py ∧ py < ry + h ∧ rx ≤ px ∧ px < rx + w ∧
          (py * aW + px) * 4 + c < rgba.length
      · rw [if_pos hin, if_pos (by omega : ry ≤ py ∧ py < ry + (h + 1) ∧ rx ≤ px ∧
          px < rx + w ∧ (py * aW + px) * 4 + c < rgba.length)]
      · rw [if_neg hin, if_neg (by
          rintro ⟨h1, h2, h3, h4, h5⟩
          exact hin ⟨h1, by omega, h3, h4, h5⟩)]

/-- A pixel of the atlas sits below the buffer's length. -/
theorem pixel_addr_lt {aW aH px py c : ℕ} (hpx : px < aW) (hpy : py < aH) (hc : c < 4) :
    (py * aW + px) * 4 + c < aW * aH * 4 := by
  have h1 : py * aW + px < aW * aH := by
    calc py * aW + px < py * aW + aW := by omega
    _ = (py + 1) * aW := by ring
    _ ≤ aH * aW := mul_le_mul_right' (by omega) aW
    _ = aW * aH := Nat.mul_comm _ _
  omega

/-- C9: filling one valid placed rectangle of dimensions w×h at lighting
offset `lightofs`: if `lightofs + w*h` overruns the lighting array, every
channel of every pixel of the block is 255 and the fill never reads the
lighting array at all (it is invariant under replacing the array by any
other of the same length); otherwise the pixel at
`(rect.x + x, rect.y + y)` is `lighting[lightofs + y*w + x]` broadcast
into R=G=B with A=255, and that read index is strictly below the lighting
array's length. -/
theorem atlas_fill_bounds (lighting : List ℕ) (aW aH : ℕ) (rect : LightmapRect)
    (lightofs : ℤ) (rgba : List ℕ)
    (hlen : rgba.length = aW * aH * 4)
    (hx : rect.x.toNat + rect.w.toNat ≤ aW)
    (hy : rect.y.toNat + rect.h.toNat ≤ aH)
    (x y : ℕ) (hxw : x < rect.w.toNat) (hyh : y < rect.h.toNat) :
    (toSizeT lightofs + rect.w.toNat * rect.h.toNat > lighting.length →
      pixelAt (fillRect lighting aW rect lightofs rgba) aW
          (rect.x.toNat + x) (rect.y.toNat + y) = (255, 255, 255, 255) ∧
      ∀ lighting' : List ℕ, lighting'.length = lighting.length →
        fillRect lighting' aW rect lightofs rgba =
          fillRect lighting aW rect lightofs rgba) ∧
    (toSizeT lightofs + rect.w.toNat * rect.h.toNat ≤ lighting.length →
      pixelAt (fillRect lighting aW rect lightofs rgba) aW
          (rect.x.toNat + x) (rect.y.toNat + y) =
        (lighting.getD (toSizeT lightofs + y * rect.w.toNat + x) 0,
         lighting.getD (toSizeT lightofs + y * rect.w.toNat + x) 0,
         lighting.getD (toSizeT lightofs + y * rect.w.toNat + x) 0, 255) ∧
      toSizeT lightofs + y * rect.w.toNat + x < lighting.length) := by
  have hpx : rect.x.toNat + x < aW := by omega
  have hpy : rect.y.toNat + y < aH := by omega
  have hget : ∀ (g : ℕ → ℕ → ℕ) (c : ℕ), c < 4 →
      (fillRectWith rgba aW rect.x.toNat rect.y.toNat rect.w.toNat rect.h.toNat g).getD
        (((rect.y.toNat + y) * aW + (rect.x.toNat + x)) * 4 + c) 0 =
        (if c = 3 then 255 else g x y) := by
    intro g c hc
    rw [fillRectWith_getD _ _ _ _ _ _ _ _ _ _ hx hpx hc,
      if_pos ⟨by omega, by omega, by omega, by omega, by rw [hlen]; exact pixel_addr_lt hpx hpy hc⟩]
    by_cases hc3 : c = 3
    · rw [if_pos hc3, if_pos hc3]
    · rw [if_neg hc3, if_neg hc3]
      congr 1 <;> omega
  constructor
  · intro hoob
    constructor
    · have hfr : fillRect lighting aW rect lightofs rgba =
          fillRectWith rgba aW rect.x.toNat rect.y.toNat rect.w.toNat rect.h.toNat
            (fun _ _ => 255) := by
        unfold fillRect; rw [if_pos hoob]
      unfold pixelAt
      rw [hfr]
      rw [show ((rect.y.toNat + y) * aW + (rect.x.toNat + x)) * 4 =
        ((rect.y.toNat + y) * aW + (rect.x.toNat + x)) * 4 + 0 by omega]
      rw [hget _ 0 (by omega), hget _ 1 (by omega), hget _ 2 (by omega),
        hget _ 3 (by omega)]
      rfl
    · intro lighting' hlen'
      unfold fillRect
      rw [hlen', if_pos hoob, if_pos hoob]
  · intro hin
    have hread : toSizeT lightofs + y * rect.w.toNat + x < lighting.length := by
      have hyx : y * rect.w.toNat + x < rect.w.toNat * rect.h.toNat := by
        have : y * rect.w.toNat + x < (y + 1) * rect.w.toNat := by
          calc y * rect.w.toNat + x < y * rect.w.toNat + rect.w.toNat := by omega
          _ = (y + 1) * rect.w.toNat := by ring
        have h2 : (y + 1) * rect.w.toNat ≤ rect.h.toNat * rect.w.toNat :=
          mul_le_mul_right' (by omega) _
        have h3 : rect.h.toNat * rect.w.toNat = rect.w.toNat * rect.h.toNat :=
          Nat.mul_comm _ _
        omega
      omega
    refine ⟨?_, hread⟩
    have hfr : fillRect lighting aW rect lightofs rgba =
        fillRectWith rgba aW rect.x.toNat rect.y.toNat rect.w.toNat rect.h.toNat
          (fun x y => lighting.getD (toSizeT lightofs + y * rect.w.toNat + x) 0) := by
      unfold fillRect; rw [if_neg (by omega)]
    unfold pixelAt
    rw [hfr]
    rw [show ((rect.y.toNat + y) * aW + (rect.x.toNat + x)) * 4 =
      ((rect.y.toNat + y) * aW + (rect.x.toNat + x)) * 4 + 0 by omega]
    rw [hget _ 0 (by omega), hget _ 1 (by omega), hget _ 2 (by omega),
      hget _ 3 (by omega)]
    norm_num

/-- Witness for C9: a 2×2 atlas with a 1×1 valid rect at the origin and
a one-byte lighting array holding 7 — the pixel reads back (7,7,7,255)
and the read index 0 is within the array. -/
theorem atlas_fill_bounds_witness :
    pixelAt (fillRect [7] 2 { x := 0, y := 0, w := 1, h := 1, lightofs := 0, valid := true }
        0 (List.replicate 16 255)) 2 0 0 = (7, 7, 7, 255) ∧
    toSizeT 0 + 0 * 1 + 0 < 1 := by
  have h := ((atlas_fill_bounds [7] 2 2
    { x := 0, y := 0, w := 1, h := 1, lightofs := 0, valid := true } 0
    (List.replicate 16 255) (by decide) (by decide) (by decide) 0 0 (by decide)
    (by decide)).2 (by decide))
  constructor
  · have h1 := h.1
    simpa using h1
  · exact h.2

end NeoQuake
